import Mathlib

/-!
Verification development for the banking-book interest-rate-risk engine
(`calculations.py`): yield-curve interpolation, present-value discounting,
per-instrument cash-flow generation, modified duration, gap bucketing,
EVE aggregation, sensitivity reporting and the scenario-history buffer.

Modelling conventions:
* dates are proleptic day ordinals (`ℤ`); `datetime.date + timedelta(days = x)`
  advances a date by `⌊x⌋` whole days (the `date.__add__` implementation only
  uses the normalised `days` component), reflected by integer steps;
* monetary amounts and rates are exact rationals (`ℚ`);
* fallible code paths (`None` comparisons raising `TypeError`, `KeyError`
  on dictionary access, `ZeroDivisionError`, and interest loops that
  cannot terminate because of a non-positive date step) are modelled
  with `Except Unit`;
* the real-valued power `(1 - prepayment_rate) ** (interval_days / 365.0)`
  of the loan generator does not stay inside `ℚ`; the map
  `x ↦ x ** (interval_days / 365.0)` is abstracted as an explicit function
  parameter `powPeriod`, and every statement below holds for all values of
  that parameter.
-/

abbrev Cashflow := ℤ × ℚ

/-- String constants of the string-typed dispatch in the source. -/
def sMonthly : String := "Monthly"

def sQuarterly : String := "Quarterly"

def sSemiAnnually : String := "Semi-Annually"

def sAnnually : String := "Annually"

def sFloatingRateLoan : String := "Floating Rate Loan"

def sCash : String := "Cash"

def sEquity : String := "Equity"

def sCD : String := "CD"

def sWholesaleFunding : String := "Wholesale Funding"

def sChecking : String := "Checking"

def sSavings : String := "Savings"

def sPayerSwap : String := "Payer Swap"

def sReceiverSwap : String := "Receiver Swap"

/-- The hard-coded fallback label of `get_bucket`. -/
def sUndefined : String := "Non-Sensitive / Undefined"

/-- `NII_HORIZON_DAYS` from `calculations.py`. -/
def NII_HORIZON_DAYS : ℤ := 365

/-- `get_periods_per_year` from `calculations.py`. -/
def get_periods_per_year (frequency : Option String) : ℕ :=
  if frequency = some sMonthly then 12
  else if frequency = some sQuarterly then 4
  else if frequency = some sSemiAnnually then 2
  else if frequency = some sAnnually then 1
  else 0

/-- `get_accrual_period` from `calculations.py` (defaults to annual). -/
def get_accrual_period (payment_frequency : Option String) : ℚ :=
  if payment_frequency = some sMonthly then 1 / 12
  else if payment_frequency = some sQuarterly then 1 / 4
  else if payment_frequency = some sSemiAnnually then 1 / 2
  else if payment_frequency = some sAnnually then 1
  else 1

/-- The twelve-point tenor ladder of the engine, rates by tenor. -/
structure YieldCurve where
  r1M : ℚ
  r3M : ℚ
  r6M : ℚ
  r1Y : ℚ
  r2Y : ℚ
  r3Y : ℚ
  r5Y : ℚ
  r7Y : ℚ
  r10Y : ℚ
  r15Y : ℚ
  r20Y : ℚ
  r30Y : ℚ
deriving DecidableEq

/-- `BASE_YIELD_CURVE` from `calculations.py`. -/
def BASE_YIELD_CURVE : YieldCurve :=
  ⟨0.0400, 0.0410, 0.0425, 0.0450, 0.0475, 0.0500,
   0.0525, 0.0540, 0.0550, 0.0560, 0.0565, 0.0570⟩

/-- The `tenor_map` of `interpolate_rate`, listed ascending by day count,
which is the order the source's sort produces on this ladder. -/
def tenorPairs (c : YieldCurve) : List (ℚ × ℚ) :=
  [(30, c.r1M), (90, c.r3M), (180, c.r6M), (365, c.r1Y), (730, c.r2Y), (1095, c.r3Y),
   (1825, c.r5Y), (2555, c.r7Y), (3650, c.r10Y), (5475, c.r15Y), (7300, c.r20Y),
   (10950, c.r30Y)]

/-- The bracket scan of `interpolate_rate`: iterate over adjacent tenor
pairs, return the left rate on a degenerate bracket, linearly interpolate
on the first bracket containing the argument, with the longest rate as
the loop fallthrough. -/
def scanBrackets (d : ℚ) : List (ℚ × ℚ) → ℚ → ℚ
  | (d1, r1) :: (d2, r2) :: rest, fb =>
      if d1 = d2 then r1
      else if d1 ≤ d ∧ d ≤ d2 then r1 + (r2 - r1) * (d - d1) / (d2 - d1)
      else scanBrackets d ((d2, r2) :: rest) fb
  | _, fb => fb

/-- `interpolate_rate` from `calculations.py`.  The day argument is
rational because the non-maturity-deposit path passes the fractional
repricing interval `365 / periods_per_year`. -/
def interpolate_rate (yield_curve : YieldCurve) (days_to_maturity : ℚ) : ℚ :=
  if days_to_maturity ≤ 0 then yield_curve.r1M
  else if days_to_maturity ≤ 30 then yield_curve.r1M
  else if 10950 ≤ days_to_maturity then yield_curve.r30Y
  else scanBrackets days_to_maturity (tenorPairs yield_curve) yield_curve.r30Y

/-- `calculate_pv_of_cashflows` from `calculations.py`: a running-total
loop; today-dated flows enter at face value, past flows are skipped,
future flows are discounted by `1 / (1 + rate * days / 365)`. -/
def calculate_pv_of_cashflows (cashflows : List Cashflow) (yield_curve : YieldCurve)
    (today : ℤ) : ℚ :=
  cashflows.foldl
    (fun total_pv cf =>
      if cf.1 ≤ today then
        (if cf.1 = today then total_pv + cf.2 else total_pv)
      else
        let days_to_payment : ℤ := cf.1 - today
        if days_to_payment ≤ 0 then total_pv + cf.2
        else
          let discount_rate := interpolate_rate yield_curve (days_to_payment : ℚ)
          let discount_factor := 1 / (1 + discount_rate * ((days_to_payment : ℚ) / 365))
          total_pv + cf.2 * discount_factor)
    0

/-- The `while next_payment_date <= today` date-advancing loops of the
cash-flow generators. -/
def advanceWhileLe (stepD : ℤ) (hstep : 1 ≤ stepD) (today : ℤ) (npd : ℤ) : ℤ :=
  if _h : npd ≤ today then advanceWhileLe stepD hstep today (npd + stepD) else npd
termination_by (today + 1 - npd).toNat
decreasing_by omega

/-- The constant-amount payment loops of the generators
(`while next_payment_date <= end: append (date, amount); advance`). -/
def payLoop (amount : ℚ) (stepD : ℤ) (hstep : 1 ≤ stepD) (endD : ℤ)
    (payment_date : ℤ) : List Cashflow :=
  if _h : payment_date ≤ endD then
    (payment_date, amount) :: payLoop amount stepD hstep endD (payment_date + stepD)
  else []
termination_by (endD + 1 - payment_date).toNat
decreasing_by omega

/-- `models.Loan` fields used by the calculation engine. -/
structure Loan where
  type : String
  notional : ℚ
  interest_rate : ℚ
  maturity_date : Option ℤ
  origination_date : ℤ
  spread : Option ℚ
  repricing_frequency : Option String
  next_repricing_date : Option ℤ
  payment_frequency : Option String
deriving DecidableEq

/-- `models.Deposit` fields used by the calculation engine. -/
structure Deposit where
  type : String
  balance : ℚ
  interest_rate : ℚ
  open_date : ℤ
  maturity_date : Option ℤ
  repricing_frequency : Option String
  next_repricing_date : Option ℤ
  payment_frequency : Option String
deriving DecidableEq

/-- `models.Derivative` fields used by the calculation engine. -/
structure Derivative where
  type : String
  subtype : String
  notional : ℚ
  start_date : ℤ
  end_date : ℤ
  fixed_rate : Option ℚ
  floating_spread : Option ℚ
  fixed_payment_frequency : Option String
  floating_payment_frequency : Option String
deriving DecidableEq

/-- The payment-date step, in whole days, of a recognised periodic
frequency is positive (termination side condition of the loops). -/
def ppyStepPos (f : Option String) (h : ¬ get_periods_per_year f = 0) :
    1 ≤ (365 : ℤ) / (get_periods_per_year f : ℤ) := by
  revert h
  unfold get_periods_per_year
  split_ifs <;> intro h <;> first | decide | (exact absurd rfl h)

/-- The main payment loop of `generate_loan_cashflows`
(`while next_payment_date <= maturity and balance > 0.01`).  Returns the
generated flows together with the final balance; an unrecognised present
repricing frequency raises `ZeroDivisionError` in the source, modelled as
an error. -/
def loanLoop (loan : Loan) (yield_curve : YieldCurve) (today mat : ℤ) (stepD : ℤ)
    (hstep : 1 ≤ stepD) (intervalQ : ℚ) (include_principal : Bool)
    (prepayment_rate prepayment_per_period : ℚ) (npd crd : ℤ) (bal : ℚ) :
    Except Unit (List Cashflow × ℚ) :=
  if h : npd ≤ mat ∧ bal > 0.01 then
    let rateStep : Except Unit (ℚ × ℤ) :=
      if loan.type = sFloatingRateLoan then
        if crd ≤ npd then
          let days_to_reprice : ℤ := if today < crd then crd - today else 0
          let er := interpolate_rate yield_curve (days_to_reprice : ℚ) + (loan.spread).getD 0
          match loan.repricing_frequency with
          | none => Except.ok (er, mat + 1)
          | some f =>
              if get_periods_per_year (some f) = 0 then Except.error ()
              else Except.ok (er, crd + 365 / (get_periods_per_year (some f) : ℤ))
        else Except.ok (loan.interest_rate, crd)
      else Except.ok (loan.interest_rate, crd)
    match rateStep with
    | Except.error e => Except.error e
    | Except.ok (effective_rate, crd2) =>
        let interest_amount := bal * effective_rate * (intervalQ / 365)
        let bal2 :=
          if 0 < prepayment_rate ∧ include_principal = true then
            (if bal - bal * prepayment_per_period < 0 then 0
             else bal - bal * prepayment_per_period)
          else bal
        match loanLoop loan yield_curve today mat stepD hstep intervalQ include_principal
            prepayment_rate prepayment_per_period (npd + stepD) crd2 bal2 with
        | Except.error e => Except.error e
        | Except.ok (rest, final_bal) => Except.ok ((npd, interest_amount) :: rest, final_bal)
  else Except.ok ([], bal)
termination_by (mat + 1 - npd).toNat
decreasing_by obtain ⟨h1, -⟩ := h; omega

/-- `generate_loan_cashflows` from `calculations.py`.  A loan whose
maturity date is missing while its payment frequency is periodic makes
the source compare a date against `None` (`TypeError`), modelled as an
error. -/
def generate_loan_cashflows (powPeriod : ℚ → ℚ) (loan : Loan) (yield_curve : YieldCurve)
    (today : ℤ) (include_principal : Bool) (prepayment_rate : ℚ) :
    Except Unit (List Cashflow) :=
  let current_balance := loan.notional
  if hppy : get_periods_per_year loan.payment_frequency = 0 then
    match loan.maturity_date with
    | some mat =>
        Except.ok (if include_principal = true ∧ today < mat then [(mat, current_balance)] else [])
    | none => Except.ok []
  else
    let stepD : ℤ := 365 / (get_periods_per_year loan.payment_frequency : ℤ)
    let prepayment_per_period : ℚ := 1 - powPeriod (1 - prepayment_rate)
    let npd0 := advanceWhileLe stepD (ppyStepPos _ hppy) today loan.origination_date
    let npd := if npd0 ≤ today then today + stepD else npd0
    let crd0 := (loan.next_repricing_date).getD loan.origination_date
    let crd := if crd0 < today then today else crd0
    match loan.maturity_date with
    | none => Except.error ()
    | some mat =>
        match loanLoop loan yield_curve today mat stepD (ppyStepPos _ hppy)
            (365 / (get_periods_per_year loan.payment_frequency : ℚ)) include_principal
            prepayment_rate prepayment_per_period npd crd current_balance with
        | Except.error e => Except.error e
        | Except.ok (cfs, final_bal) =>
            Except.ok (cfs ++
              (if include_principal = true ∧ final_bal > 0.01 ∧ today < mat
               then [(mat, final_bal)] else []))

/-- `365 / get_periods_per_year(x) if x else default`, as used twice by
the non-maturity-deposit branch; a present but unrecognised frequency
divides by zero in the source, modelled as an error. -/
def freqDaysOr (default : ℚ) (freq : Option String) : Except Unit ℚ :=
  match freq with
  | none => Except.ok default
  | some f =>
      if get_periods_per_year (some f) = 0 then Except.error ()
      else Except.ok (365 / (get_periods_per_year (some f) : ℚ))

/-- The whole-day step of a `freqDaysOr 30` result is positive
(termination side condition). -/
def freqDaysFloorPos (f : Option String) (q : ℚ) (h : freqDaysOr 30 f = Except.ok q) :
    1 ≤ ⌊q⌋ := by
  cases f with
  | none =>
      simp only [freqDaysOr] at h
      cases h
      rw [Int.le_floor]
      norm_num
  | some s =>
      simp only [freqDaysOr, get_periods_per_year] at h
      split_ifs at h <;>
        first
          | exact (Except.noConfusion h)
          | (cases h; rw [Int.le_floor]; norm_num; done)
          | simp_all

/-- `generate_deposit_cashflows` from `calculations.py`: the CD /
wholesale-funding branch, the behavioural non-maturity-deposit branch,
and the empty fallthrough.  A CD whose payment frequency is
non-periodic uses `maturity - open` as its interval; when that step is
non-positive the source's payment loops either never run
(`open_date` after both `today` and the maturity) or never terminate,
the latter modelled as an error. -/
def generate_deposit_cashflows (deposit : Deposit) (yield_curve : YieldCurve) (today : ℤ)
    (include_principal : Bool) (nmd_effective_maturity_years : ℤ) (nmd_deposit_beta : ℚ) :
    Except Unit (List Cashflow) :=
  let current_balance := deposit.balance
  if deposit.type = sCD ∨ deposit.type = sWholesaleFunding then
    match deposit.maturity_date with
    | none => Except.ok []
    | some mat =>
        if mat ≤ today then Except.ok []
        else
          if hppy : get_periods_per_year deposit.payment_frequency = 0 then
            let stepD : ℤ := mat - deposit.open_date
            if hs : 1 ≤ stepD then
              let npd0 := advanceWhileLe stepD hs today deposit.open_date
              let npd := if npd0 ≤ today then today + stepD else npd0
              let cfs := payLoop
                (-(current_balance * deposit.interest_rate * ((stepD : ℚ) / 365)))
                stepD hs mat npd
              Except.ok (cfs ++ (if include_principal then [(mat, -current_balance)] else []))
            else
              if deposit.open_date ≤ today ∨ deposit.open_date ≤ mat then Except.error ()
              else Except.ok (if include_principal then [(mat, -current_balance)] else [])
          else
            let stepD : ℤ := 365 / (get_periods_per_year deposit.payment_frequency : ℤ)
            let npd0 := advanceWhileLe stepD (ppyStepPos _ hppy) today deposit.open_date
            let npd := if npd0 ≤ today then today + stepD else npd0
            let cfs := payLoop
              (-(current_balance * deposit.interest_rate *
                  ((365 / (get_periods_per_year deposit.payment_frequency : ℚ)) / 365)))
              stepD (ppyStepPos _ hppy) mat npd
            Except.ok (cfs ++ (if include_principal then [(mat, -current_balance)] else []))
  else if deposit.type = sChecking ∨ deposit.type = sSavings then
    let conceptual_maturity_date := today + 365 * nmd_effective_maturity_years
    match freqDaysOr 30 deposit.repricing_frequency with
    | Except.error e => Except.error e
    | Except.ok repricing_freq_days =>
        let base_market_rate := interpolate_rate BASE_YIELD_CURVE repricing_freq_days
        let shocked_market_rate := interpolate_rate yield_curve repricing_freq_days
        let market_rate_change := shocked_market_rate - base_market_rate
        let effective_rate :=
          max 0.0001 (deposit.interest_rate + market_rate_change * nmd_deposit_beta)
        match hq : freqDaysOr 30 deposit.payment_frequency with
        | Except.error e => Except.error e
        | Except.ok pay_freq_days =>
            let npd := today + ⌊pay_freq_days⌋
            let projection_end_date :=
              if include_principal then conceptual_maturity_date
              else today + NII_HORIZON_DAYS
            let cfs := payLoop
              (-(current_balance * effective_rate * (pay_freq_days / 365)))
              ⌊pay_freq_days⌋ (freqDaysFloorPos _ _ hq) projection_end_date npd
            Except.ok (cfs ++
              (if include_principal then [(conceptual_maturity_date, -current_balance)] else []))
  else Except.ok []

/-- `generate_fixed_leg_cashflows` from `calculations.py`. -/
def generate_fixed_leg_cashflows (derivative : Derivative) (yield_curve : YieldCurve)
    (today : ℤ) : List Cashflow :=
  match derivative.fixed_rate with
  | none => []
  | some fr =>
      let payment_date := advanceWhileLe 365 (by norm_num) today derivative.start_date
      let accrual_period := get_accrual_period derivative.fixed_payment_frequency
      let fixed_payment := fr * derivative.notional * accrual_period
      payLoop fixed_payment 365 (by norm_num) derivative.end_date payment_date

/-- The floating-leg payment loop (`while payment_date <= end_date`,
skipping non-future dates, annual advance). -/
def floatLegLoop (derivative : Derivative) (yield_curve : YieldCurve) (today : ℤ)
    (accrual_period : ℚ) (payment_date : ℤ) : List Cashflow :=
  if _h : payment_date ≤ derivative.end_date then
    let days_to_payment : ℤ := payment_date - today
    if days_to_payment ≤ 0 then
      floatLegLoop derivative yield_curve today accrual_period (payment_date + 365)
    else
      let floating_rate :=
        interpolate_rate yield_curve (days_to_payment : ℚ) + (derivative.floating_spread).getD 0
      (payment_date, floating_rate * derivative.notional * accrual_period) ::
        floatLegLoop derivative yield_curve today accrual_period (payment_date + 365)
  else []
termination_by (derivative.end_date + 1 - payment_date).toNat
decreasing_by all_goals omega

/-- `generate_floating_leg_cashflows` from `calculations.py`. -/
def generate_floating_leg_cashflows (derivative : Derivative) (yield_curve : YieldCurve)
    (today : ℤ) : List Cashflow :=
  let payment_date := advanceWhileLe 365 (by norm_num) today derivative.start_date
  floatLegLoop derivative yield_curve today
    (get_accrual_period derivative.floating_payment_frequency) payment_date

/-- `calculate_fixed_leg_pv` from `calculations.py`. -/
def calculate_fixed_leg_pv (derivative : Derivative) (yield_curve : YieldCurve)
    (today : ℤ) : ℚ :=
  match derivative.fixed_rate with
  | none => 0
  | some _ =>
      calculate_pv_of_cashflows (generate_fixed_leg_cashflows derivative yield_curve today)
        yield_curve today

/-- `calculate_floating_leg_pv` from `calculations.py`. -/
def calculate_floating_leg_pv (derivative : Derivative) (yield_curve : YieldCurve)
    (today : ℤ) : ℚ :=
  calculate_pv_of_cashflows (generate_floating_leg_cashflows derivative yield_curve today)
    yield_curve today

/-- The per-derivative NII contribution of `calculate_nii_and_eve_for_curve`
(lines 328-352): `(income, expense)` added for an active swap, nothing for
an inactive one. -/
def derivative_nii_contribution (derivative : Derivative) (yield_curve : YieldCurve)
    (today nii_horizon_date : ℤ) : ℚ × ℚ :=
  if derivative.start_date ≤ today ∧ today < derivative.end_date then
    let fixed_cfs := generate_fixed_leg_cashflows derivative yield_curve today
    let floating_cfs := generate_floating_leg_cashflows derivative yield_curve today
    let fixed_nii :=
      ((fixed_cfs.filter (fun cf => today < cf.1 ∧ cf.1 ≤ nii_horizon_date)).map Prod.snd).sum
    let floating_nii :=
      ((floating_cfs.filter (fun cf => today < cf.1 ∧ cf.1 ≤ nii_horizon_date)).map Prod.snd).sum
    if derivative.subtype = sPayerSwap then (|floating_nii|, |fixed_nii|)
    else if derivative.subtype = sReceiverSwap then (|fixed_nii|, |floating_nii|)
    else (|fixed_nii|, |floating_nii|)
  else (0, 0)

/-- The result fields of the EVE section of
`calculate_nii_and_eve_for_curve`. -/
structure EveTotals where
  economic_value_of_equity : ℚ
  total_assets_value : ℚ
  total_liabilities_value : ℚ
  total_derivatives_value : ℚ
deriving DecidableEq

/-- The EVE section of `calculate_nii_and_eve_for_curve` (lines 360-413):
accumulate loan PVs into assets (skipping `Cash`), deposit PVs into
liabilities (skipping `Equity`), add each swap leg's PV to the side its
subtype dictates, and return
`assets - |liabilities| + total_pv_derivatives` with
`total_pv_derivatives` never written after its initialisation to `0.0`. -/
def calculate_eve_for_curve (powPeriod : ℚ → ℚ) (loans : List Loan) (deposits : List Deposit)
    (derivatives : List Derivative) (yield_curve : YieldCurve) (today : ℤ)
    (nmd_effective_maturity_years : ℤ) (nmd_deposit_beta prepayment_rate : ℚ) :
    Except Unit EveTotals := do
  let total_pv_assets0 ← loans.foldlM
    (fun acc loan =>
      if loan.type = sCash then pure acc
      else do
        let loan_cfs ← generate_loan_cashflows powPeriod loan yield_curve today true
          prepayment_rate
        pure (acc + calculate_pv_of_cashflows loan_cfs yield_curve today))
    (0 : ℚ)
  let total_pv_liabilities0 ← deposits.foldlM
    (fun acc deposit =>
      if deposit.type = sEquity then pure acc
      else do
        let deposit_cfs ← generate_deposit_cashflows deposit yield_curve today true
          nmd_effective_maturity_years nmd_deposit_beta
        pure (acc + calculate_pv_of_cashflows deposit_cfs yield_curve today))
    (0 : ℚ)
  let totals := derivatives.foldl
    (fun (acc : ℚ × ℚ) derivative =>
      let fixed_pv := calculate_fixed_leg_pv derivative yield_curve today
      let floating_pv := calculate_floating_leg_pv derivative yield_curve today
      if derivative.subtype = sReceiverSwap then (acc.1 + fixed_pv, acc.2 + floating_pv)
      else if derivative.subtype = sPayerSwap then (acc.1 + floating_pv, acc.2 + fixed_pv)
      else (acc.1 + fixed_pv, acc.2 + floating_pv))
    (total_pv_assets0, total_pv_liabilities0)
  let total_pv_derivatives : ℚ := 0
  pure ⟨totals.1 - |totals.2| + total_pv_derivatives, totals.1, |totals.2|,
    total_pv_derivatives⟩

/-- Present value of one loan's principal-included schedule, as the spec's
EVE formula sums it (`Σ PV(asset flows, principal included)`). -/
def loan_schedule_pv (powPeriod : ℚ → ℚ) (yield_curve : YieldCurve) (today : ℤ)
    (prepayment_rate : ℚ) (loan : Loan) : Except Unit ℚ :=
  (generate_loan_cashflows powPeriod loan yield_curve today true prepayment_rate).map
    (fun cfs => calculate_pv_of_cashflows cfs yield_curve today)

/-- Present value of one deposit's principal-included schedule, as the
spec's EVE formula sums it (`Σ PV(liability flows, principal included)`). -/
def deposit_schedule_pv (yield_curve : YieldCurve) (today : ℤ)
    (nmd_effective_maturity_years : ℤ) (nmd_deposit_beta : ℚ) (deposit : Deposit) :
    Except Unit ℚ :=
  (generate_deposit_cashflows deposit yield_curve today true nmd_effective_maturity_years
      nmd_deposit_beta).map
    (fun cfs => calculate_pv_of_cashflows cfs yield_curve today)

/-- Collect the per-instrument schedule PVs of the non-skipped
instruments, failing if any generation fails. -/
def collectPVs {α : Type} (f : α → Except Unit ℚ) (skip : α → Prop) [DecidablePred skip] :
    List α → Except Unit (List ℚ)
  | [] => Except.ok []
  | a :: l =>
      if skip a then collectPVs f skip l
      else do
        let v ← f a
        let vs ← collectPVs f skip l
        pure (v :: vs)

/-- The swap leg assigned to the asset side by the EVE section:
fixed leg of a receiver swap, floating leg of a payer swap, fixed leg
otherwise. -/
def derivative_asset_leg_pv (yield_curve : YieldCurve) (today : ℤ)
    (derivative : Derivative) : ℚ :=
  if derivative.subtype = sReceiverSwap then calculate_fixed_leg_pv derivative yield_curve today
  else if derivative.subtype = sPayerSwap then
    calculate_floating_leg_pv derivative yield_curve today
  else calculate_fixed_leg_pv derivative yield_curve today

/-- The swap leg assigned to the liability side by the EVE section. -/
def derivative_liability_leg_pv (yield_curve : YieldCurve) (today : ℤ)
    (derivative : Derivative) : ℚ :=
  if derivative.subtype = sReceiverSwap then
    calculate_floating_leg_pv derivative yield_curve today
  else if derivative.subtype = sPayerSwap then calculate_fixed_leg_pv derivative yield_curve today
  else calculate_floating_leg_pv derivative yield_curve today

/-- Stable insertion into a list sorted ascending by second component
(`sorted(buckets.items(), key=lambda item: item[1])`). -/
def insertByVal (x : String × ℤ) : List (String × ℤ) → List (String × ℤ)
  | [] => [x]
  | y :: ys => if y.2 < x.2 then y :: insertByVal x ys else x :: y :: ys

/-- Stable sort by second component, as Python's `sorted` with a value key. -/
def sortByVal : List (String × ℤ) → List (String × ℤ)
  | [] => []
  | x :: xs => insertByVal x (sortByVal xs)

/-- The ascending scan of `get_bucket`: skip sentinel entries
(`days_limit == -1`), return the first bucket whose limit covers the
day difference. -/
def scanBuckets (days_diff : ℤ) : List (String × ℤ) → Option String
  | [] => none
  | (bucket_name, days_limit) :: rest =>
      if days_limit = -1 then scanBuckets days_diff rest
      else if days_diff ≤ days_limit then some bucket_name
      else scanBuckets days_diff rest

/-- `get_bucket` from `calculations.py`.  A `None` date returns the
hard-coded label; otherwise scan the value-sorted table and fall back to
the largest-bound bucket, then to the hard-coded label. -/
def get_bucket (item_date : Option ℤ) (today : ℤ) (buckets : List (String × ℤ)) : String :=
  match item_date with
  | none => sUndefined
  | some d =>
      let days_diff := d - today
      let sorted_buckets := sortByVal buckets
      match scanBuckets days_diff sorted_buckets with
      | some bucket_name => bucket_name
      | none =>
          match sorted_buckets.getLast? with
          | some last => if last.2 < days_diff then last.1 else sUndefined
          | none => sUndefined

/-- The EVE maturity-gap bucket table (`eve_buckets_def`). -/
def eve_buckets_def : List (String × ℤ) :=
  [("0-1 Year", 365), ("1-3 Years", 1095), ("3-5 Years", 1825),
   ("5-10 Years", 3650), (">10 Years", 36500), ("Non-Maturity", -1)]

/-- `eve_bucket_order` from `calculate_gap_analysis`, the keys of the
accumulator dictionary. -/
def eve_bucket_order : List String :=
  ["0-1 Year", "1-3 Years", "3-5 Years", "5-10 Years", ">10 Years", "Non-Maturity"]

/-- `eve_gap_data[bucket_name]["assets"] += notional`: a lookup into the
bucket-keyed dictionary that raises `KeyError` when the label is not a
key. -/
def bumpGap (data : List (String × ℚ)) (key : String) (amt : ℚ) :
    Except Unit (List (String × ℚ)) :=
  if (data.map Prod.fst).contains key then
    Except.ok (data.map fun kv => if kv.1 = key then (kv.1, kv.2 + amt) else kv)
  else Except.error ()

/-- The loan loop of the EVE maturity-gap section of
`calculate_gap_analysis` (lines 595-599): bucket each non-`Cash` loan by
its maturity date and add its notional to that bucket's assets. -/
def eveGapLoanAssets (loans : List Loan) (today : ℤ) : Except Unit (List (String × ℚ)) :=
  loans.foldlM
    (fun data loan =>
      if loan.type = sCash then pure data
      else bumpGap data (get_bucket loan.maturity_date today eve_buckets_def) loan.notional)
    (eve_bucket_order.map fun b => (b, 0))

/-- `calculate_modified_duration` from `calculations.py`: a running
`(pv, weighted_sum)` loop over future-dated flows, `None` on an empty
schedule or a zero accumulated PV, otherwise Macaulay duration divided by
one plus the average interpolated yield over the future payment dates. -/
def calculate_modified_duration (cashflows : List Cashflow) (yield_curve : YieldCurve)
    (today : ℤ) : Option ℚ :=
  if cashflows = [] then none
  else
    let acc := cashflows.foldl
      (fun (acc : ℚ × ℚ) cf =>
        if cf.1 ≤ today then acc
        else
          let days_to_payment : ℤ := cf.1 - today
          let t : ℚ := (days_to_payment : ℚ) / 365
          let discount_rate := interpolate_rate yield_curve (days_to_payment : ℚ)
          let discount_factor := 1 / (1 + discount_rate * t)
          let pv_cf := cf.2 * discount_factor
          (acc.1 + pv_cf, acc.2 + t * pv_cf))
      (0, 0)
    if acc.1 = 0 then none
    else
      let future := cashflows.filter (fun cf => today < cf.1)
      let avg_yield :=
        (future.map (fun cf => interpolate_rate yield_curve ((cf.1 - today : ℤ) : ℚ))).sum /
          ((max 1 future.length : ℕ) : ℚ)
      some (acc.2 / acc.1 / (1 + avg_yield))

/-- Spec-side present value of the strictly future flows, exactly as the
duration loop discounts them. -/
def md_future_pv (cashflows : List Cashflow) (yield_curve : YieldCurve) (today : ℤ) : ℚ :=
  ((cashflows.filter (fun cf => today < cf.1)).map
    (fun cf =>
      cf.2 * (1 / (1 + interpolate_rate yield_curve ((cf.1 - today : ℤ) : ℚ) *
        (((cf.1 - today : ℤ) : ℚ) / 365))))).sum

/-- Spec-side PV-weighted time (years) of the strictly future flows. -/
def md_weighted_time (cashflows : List Cashflow) (yield_curve : YieldCurve) (today : ℤ) : ℚ :=
  ((cashflows.filter (fun cf => today < cf.1)).map
    (fun cf =>
      (((cf.1 - today : ℤ) : ℚ) / 365) *
        (cf.2 * (1 / (1 + interpolate_rate yield_curve ((cf.1 - today : ℤ) : ℚ) *
          (((cf.1 - today : ℤ) : ℚ) / 365)))))).sum

/-- Spec-side average interpolated yield across the future payment dates. -/
def md_avg_yield (cashflows : List Cashflow) (yield_curve : YieldCurve) (today : ℤ) : ℚ :=
  ((cashflows.filter (fun cf => today < cf.1)).map
      (fun cf => interpolate_rate yield_curve ((cf.1 - today : ℤ) : ℚ))).sum /
    ((max 1 (cashflows.filter (fun cf => today < cf.1)).length : ℕ) : ℚ)

/-- Python's `round` ties-to-even on an integer target. -/
def roundHalfEven (x : ℚ) : ℤ :=
  if x - ⌊x⌋ < 1 / 2 then ⌊x⌋
  else if 1 / 2 < x - ⌊x⌋ then ⌊x⌋ + 1
  else if Even ⌊x⌋ then ⌊x⌋ else ⌊x⌋ + 1

/-- `round(x, 2)`: round to two decimal places, ties to even. -/
def round2 (x : ℚ) : ℚ := (roundHalfEven (x * 100) : ℚ) / 100

/-- The EVE sensitivity block of `generate_dashboard_data_from_db`
(lines 710-723): zero unless the base value is non-zero and the
Parallel Up +200bps value was found, else the rounded percentage change. -/
def eve_sensitivity_of (base_case_eve : ℚ) (eve_up_200bps : Option ℚ) : ℚ :=
  match eve_up_200bps with
  | none => 0
  | some up =>
      if base_case_eve ≠ 0 then round2 ((up - base_case_eve) / base_case_eve * 100)
      else 0

/-- `MAX_SCENARIO_HISTORY` from `calculations.py`. -/
def MAX_SCENARIO_HISTORY : ℕ := 10

/-- Python's `l[-n:]`: the last `n` entries (all of them when shorter). -/
def takeLast {α : Type} (n : ℕ) (l : List α) : List α := l.drop (l.length - n)

/-- One dashboard run's update of the module-level `_scenario_history`
(lines 741-742): append the new point, then keep the most recent
`MAX_SCENARIO_HISTORY` entries. -/
def scenario_history_step {α : Type} (history : List α) (new_point : α) : List α :=
  takeLast MAX_SCENARIO_HISTORY (history ++ [new_point])

/-- Day counts of the twelve tenors, ascending. -/
def ladderDays (i : Fin 12) : ℚ :=
  match i.val with
  | 0 => 30
  | 1 => 90
  | 2 => 180
  | 3 => 365
  | 4 => 730
  | 5 => 1095
  | 6 => 1825
  | 7 => 2555
  | 8 => 3650
  | 9 => 5475
  | 10 => 7300
  | _ => 10950

/-- Rates of the twelve tenors of a curve, in ladder order. -/
def ladderRate (c : YieldCurve) (i : Fin 12) : ℚ :=
  match i.val with
  | 0 => c.r1M
  | 1 => c.r3M
  | 2 => c.r6M
  | 3 => c.r1Y
  | 4 => c.r2Y
  | 5 => c.r3Y
  | 6 => c.r5Y
  | 7 => c.r7Y
  | 8 => c.r10Y
  | 9 => c.r15Y
  | 10 => c.r20Y
  | _ => c.r30Y

/-- Remaining instrument-type constants used by the fixtures. -/
def sFixedRateLoan : String := "Fixed Rate Loan"

def sInterestRateSwap : String := "Interest Rate Swap"

/-- Fixture: a bullet loan with no periodic payment frequency (the
non-periodic branch of the generator). -/
def loanBullet : Loan :=
  { type := sFixedRateLoan, notional := 5000, interest_rate := 1 / 20,
    maturity_date := some 100, origination_date := 0, spread := none,
    repricing_frequency := none, next_repricing_date := none, payment_frequency := none }

/-- Fixture: an annual-pay loan whose maturity date is missing. -/
def loanNoMaturity : Loan :=
  { type := sFixedRateLoan, notional := 1000, interest_rate := 1 / 20,
    maturity_date := none, origination_date := 0, spread := none,
    repricing_frequency := none, next_repricing_date := none,
    payment_frequency := some sAnnually }

/-- Fixture: a CD whose maturity date is missing. -/
def cdNoMaturity : Deposit :=
  { type := sCD, balance := 800, interest_rate := 1 / 25, open_date := 0,
    maturity_date := none, repricing_frequency := none, next_repricing_date := none,
    payment_frequency := none }

/-- Fixture: a forward-starting payer swap (`start_date > today` for
`today = 0`). -/
def swapForward : Derivative :=
  { type := sInterestRateSwap, subtype := sPayerSwap, notional := 1000,
    start_date := 10, end_date := 400, fixed_rate := some (1 / 20),
    floating_spread := none, fixed_payment_frequency := none,
    floating_payment_frequency := none }

/-- Fixture: an already matured payer swap (`end_date ≤ today` for
`today = 0`). -/
def swapMatured : Derivative :=
  { type := sInterestRateSwap, subtype := sPayerSwap, notional := 1000,
    start_date := -400, end_date := -5, fixed_rate := some (1 / 20),
    floating_spread := none, fixed_payment_frequency := none,
    floating_payment_frequency := none }

/-- Fixture: an active receiver swap with a quarterly fixed-leg
frequency. -/
def swapQuarterly : Derivative :=
  { type := sInterestRateSwap, subtype := sReceiverSwap, notional := 1000000,
    start_date := 100, end_date := 500, fixed_rate := some (1 / 25),
    floating_spread := none, fixed_payment_frequency := some sQuarterly,
    floating_payment_frequency := none }

/-- Fixture: the PV of the bullet loan's single principal flow. -/
def loanBullet_pv : ℚ := calculate_pv_of_cashflows [(100, 5000)] BASE_YIELD_CURVE 0

theorem advanceWhileLe_gt (stepD : ℤ) (hstep : 1 ≤ stepD) (today npd : ℤ) :
    today < advanceWhileLe stepD hstep today npd := by
  rw [advanceWhileLe.eq_def]
  split
  · exact advanceWhileLe_gt stepD hstep today (npd + stepD)
  · omega
termination_by (today + 1 - npd).toNat
decreasing_by omega

theorem payLoop_amount (amount : ℚ) (stepD : ℤ) (hstep : 1 ≤ stepD) (endD : ℤ) :
    ∀ (p : ℤ), ∀ cf ∈ payLoop amount stepD hstep endD p, cf.2 = amount := by
  intro p cf hcf
  rw [payLoop.eq_def] at hcf
  split at hcf
  · rcases List.mem_cons.mp hcf with h | h
    · rw [h]
    · exact payLoop_amount amount stepD hstep endD (p + stepD) cf h
  · exact absurd hcf (List.not_mem_nil cf)
termination_by p => (endD + 1 - p).toNat
decreasing_by omega

theorem payLoop_head (amount : ℚ) (stepD : ℤ) (hstep : 1 ≤ stepD) (endD p : ℤ) (q : Cashflow)
    (h : (payLoop amount stepD hstep endD p).head? = some q) : q.1 = p := by
  rw [payLoop.eq_def] at h
  split at h
  · simp only [List.head?_cons, Option.some.injEq] at h
    rw [← h]
  · exact absurd h (by simp)

theorem payLoop_chain (amount : ℚ) (stepD : ℤ) (hstep : 1 ≤ stepD) (endD : ℤ) :
    ∀ (p : ℤ), List.Chain' (fun x y : Cashflow => y.1 = x.1 + stepD)
      (payLoop amount stepD hstep endD p) := by
  intro p
  rw [payLoop.eq_def]
  split
  · refine List.chain'_cons'.mpr ⟨?_, payLoop_chain amount stepD hstep endD (p + stepD)⟩
    intro q hq
    exact payLoop_head amount stepD hstep endD (p + stepD) q hq
  · exact List.chain'_nil
termination_by p => (endD + 1 - p).toNat
decreasing_by omega

theorem payLoop_mem_dates (amount : ℚ) (stepD : ℤ) (hstep : 1 ≤ stepD) (endD : ℤ) :
    ∀ (p : ℤ), ∀ cf ∈ payLoop amount stepD hstep endD p, p ≤ cf.1 ∧ cf.1 ≤ endD := by
  intro p cf hcf
  rw [payLoop.eq_def] at hcf
  split at hcf
  · rcases List.mem_cons.mp hcf with h | h
    · rw [h]; omega
    · have := payLoop_mem_dates amount stepD hstep endD (p + stepD) cf h
      omega
  · exact absurd hcf (List.not_mem_nil cf)
termination_by p => (endD + 1 - p).toNat
decreasing_by omega

theorem payLoop_nil (amount : ℚ) (stepD : ℤ) (hstep : 1 ≤ stepD) (endD p : ℤ)
    (h : endD < p) : payLoop amount stepD hstep endD p = [] := by
  rw [payLoop.eq_def]
  split
  · omega
  · rfl

/-- C6: `calculate_pv_of_cashflows` of the empty schedule is zero, a
single flow dated exactly today enters at face value, and a flow dated
strictly before today contributes nothing wherever it sits in the
schedule. -/
theorem spec_C6 :
    (∀ (yield_curve : YieldCurve) (today : ℤ),
      calculate_pv_of_cashflows [] yield_curve today = 0) ∧
    (∀ (yield_curve : YieldCurve) (today : ℤ) (A : ℚ),
      calculate_pv_of_cashflows [(today, A)] yield_curve today = A) ∧
    (∀ (yield_curve : YieldCurve) (today d : ℤ) (a : ℚ) (l1 l2 : List Cashflow),
      d < today →
      calculate_pv_of_cashflows (l1 ++ (d, a) :: l2) yield_curve today =
        calculate_pv_of_cashflows (l1 ++ l2) yield_curve today) := by
  refine ⟨fun _ _ => rfl, ?_, ?_⟩
  · intro yc today A
    simp [calculate_pv_of_cashflows]
  · intro yc today d a l1 l2 hd
    unfold calculate_pv_of_cashflows
    rw [List.foldl_append, List.foldl_append, List.foldl_cons]
    congr 1
    simp only [hd.le, if_pos, hd.ne, if_neg, ite_false]

theorem spec_C6_witness :
    calculate_pv_of_cashflows [(-5, 7), (0, 3)] BASE_YIELD_CURVE 0 =
      calculate_pv_of_cashflows [(0, 3)] BASE_YIELD_CURVE 0 :=
  spec_C6.2.2 BASE_YIELD_CURVE 0 (-5) 7 [] [(0, 3)] (by norm_num)

/-- C10: one dashboard run appends exactly one point to the scenario
history and truncates it to the most recent `MAX_SCENARIO_HISTORY = 10`
entries, so the list never holds more than ten points. -/
theorem spec_C10 :
    MAX_SCENARIO_HISTORY = 10 ∧
    ∀ {α : Type} (history : List α) (new_point : α),
      (scenario_history_step history new_point).length ≤ MAX_SCENARIO_HISTORY ∧
      (scenario_history_step history new_point).length =
        min (history.length + 1) MAX_SCENARIO_HISTORY ∧
      (scenario_history_step history new_point).IsSuffix (history ++ [new_point]) := by
  refine ⟨rfl, ?_⟩
  intro α history new_point
  refine ⟨?_, ?_, List.drop_suffix _ _⟩
  · simp only [scenario_history_step, takeLast, List.length_drop, List.length_append,
      List.length_singleton, MAX_SCENARIO_HISTORY]
    omega
  · simp only [scenario_history_step, takeLast, List.length_drop, List.length_append,
      List.length_singleton, MAX_SCENARIO_HISTORY]
    omega

/-- C8: the reported EVE sensitivity is the rounded percentage change
against the base value when the base is non-zero, zero when the base is
exactly zero, and the documented example evaluates to `-10.00`. -/
theorem spec_C8 :
    (∀ (base up : ℚ), base ≠ 0 →
      eve_sensitivity_of base (some up) = round2 ((up - base) / base * 100)) ∧
    (∀ (up : Option ℚ), eve_sensitivity_of 0 up = 0) ∧
    eve_sensitivity_of 1000000 (some 900000) = -10 := by
  refine ⟨?_, ?_, ?_⟩
  · intro base up hb
    simp [eve_sensitivity_of, hb]
  · intro up
    cases up with
    | none => rfl
    | some u => simp [eve_sensitivity_of]
  · have h1 : ((900000 : ℚ) - 1000000) / 1000000 * 100 = -10 := by norm_num
    have h2 : ⌊(-10 : ℚ) * 100⌋ = -1000 := by
      rw [show ((-10 : ℚ) * 100) = ((-1000 : ℤ) : ℚ) by norm_num, Int.floor_intCast]
    simp only [eve_sensitivity_of, if_pos (by norm_num : (1000000 : ℚ) ≠ 0), h1, round2,
      roundHalfEven, h2]
    norm_num

theorem spec_C8_witness :
    eve_sensitivity_of 5 (some 6) = round2 ((6 - 5) / 5 * 100) :=
  spec_C8.1 5 6 (by norm_num)

theorem floatLegLoop_props (d : Derivative) (yc : YieldCurve) (today : ℤ) (accrual : ℚ) :
    ∀ (p : ℤ), today < p → ∀ cf ∈ floatLegLoop d yc today accrual p,
      cf.2 = (interpolate_rate yc ((cf.1 - today : ℤ) : ℚ) + (d.floating_spread).getD 0) *
          d.notional * accrual ∧ today < cf.1 ∧ cf.1 ≤ d.end_date := by
  intro p hp cf hcf
  rw [floatLegLoop.eq_def] at hcf
  split at hcf
  · simp only [] at hcf
    rw [if_neg (by omega : ¬(p - today ≤ (0 : ℤ)))] at hcf
    rcases List.mem_cons.mp hcf with h | h
    · refine ⟨?_, ?_, ?_⟩ <;> rw [h] <;> first | rfl | omega
    · exact floatLegLoop_props d yc today accrual (p + 365) (by omega) cf h
  · exact absurd hcf (List.not_mem_nil cf)
termination_by p => (d.end_date + 1 - p).toNat
decreasing_by omega

theorem floatLegLoop_head (d : Derivative) (yc : YieldCurve) (today : ℤ) (accrual : ℚ)
    (p : ℤ) (hp : today < p) (q : Cashflow)
    (h : (floatLegLoop d yc today accrual p).head? = some q) : q.1 = p := by
  rw [floatLegLoop.eq_def] at h
  split at h
  · simp only [] at h
    rw [if_neg (by omega : ¬(p - today ≤ (0 : ℤ)))] at h
    simp only [List.head?_cons, Option.some.injEq] at h
    rw [← h]
  · exact absurd h (by simp)

theorem floatLegLoop_chain (d : Derivative) (yc : YieldCurve) (today : ℤ) (accrual : ℚ) :
    ∀ (p : ℤ), today < p →
      List.Chain' (fun x y : Cashflow => y.1 = x.1 + 365) (floatLegLoop d yc today accrual p) := by
  intro p hp
  rw [floatLegLoop.eq_def]
  split
  · simp only []
    rw [if_neg (by omega : ¬(p - today ≤ (0 : ℤ)))]
    refine List.chain'_cons'.mpr ⟨?_, floatLegLoop_chain d yc today accrual (p + 365) (by omega)⟩
    intro q hq
    exact floatLegLoop_head d yc today accrual (p + 365) (by omega) q hq
  · exact List.chain'_nil
termination_by p => (d.end_date + 1 - p).toNat
decreasing_by omega

theorem floatLegLoop_nil (d : Derivative) (yc : YieldCurve) (today : ℤ) (accrual : ℚ)
    (p : ℤ) (h : d.end_date < p) : floatLegLoop d yc today accrual p = [] := by
  rw [floatLegLoop.eq_def]
  split
  · omega
  · rfl

/-- C4 (amended): a swap whose `end_date` is not after `today` generates
no fixed-leg and no floating-leg cash flows, and the NII derivative
section contributes nothing for a swap that is not active
(`start ≤ today < end`); the leg generators themselves, and hence the
EVE path, do generate flows for a forward-starting swap
(`start_date > today`), beginning at its start date. -/
theorem spec_C4 :
    (∀ (d : Derivative) (yc : YieldCurve) (today : ℤ), d.end_date ≤ today →
      generate_fixed_leg_cashflows d yc today = [] ∧
      generate_floating_leg_cashflows d yc today = []) ∧
    (∀ (d : Derivative) (yc : YieldCurve) (today horizon : ℤ),
      ¬(d.start_date ≤ today ∧ today < d.end_date) →
      derivative_nii_contribution d yc today horizon = (0, 0)) := by
  constructor
  · intro d yc today hend
    constructor
    · unfold generate_fixed_leg_cashflows
      cases hfr : d.fixed_rate with
      | none => rfl
      | some fr =>
          have hgt := advanceWhileLe_gt 365 (by norm_num) today d.start_date
          exact payLoop_nil _ 365 (by norm_num) d.end_date _ (by omega)
    · unfold generate_floating_leg_cashflows
      have hgt := advanceWhileLe_gt 365 (by norm_num) today d.start_date
      exact floatLegLoop_nil d yc today _ _ (by omega)
  · intro d yc today horizon hact
    unfold derivative_nii_contribution
    rw [if_neg hact]

theorem spec_C4_witness :
    generate_fixed_leg_cashflows swapMatured BASE_YIELD_CURVE 0 = [] ∧
    generate_floating_leg_cashflows swapMatured BASE_YIELD_CURVE 0 = [] :=
  spec_C4.1 swapMatured BASE_YIELD_CURVE 0 (by norm_num [swapMatured])

theorem spec_C4_cex :
    0 < swapForward.start_date ∧
    generate_fixed_leg_cashflows swapForward BASE_YIELD_CURVE 0 = [(10, 50), (375, 50)] := by
  have hacc : get_accrual_period none = 1 := rfl
  constructor
  · norm_num [swapForward]
  · simp only [generate_fixed_leg_cashflows, swapForward, hacc]
    rw [advanceWhileLe.eq_def]
    norm_num
    rw [payLoop.eq_def]
    norm_num
    rw [payLoop.eq_def]
    norm_num
    rw [payLoop.eq_def]
    norm_num

/-- C5 (amended): every fixed-leg payment equals
`fixed_rate * notional * accrual_period(fixed_payment_frequency)`, every
floating-leg payment equals
`(interpolate(curve, days_to_payment) + floating_spread) * notional *
accrual_period(floating_payment_frequency)` (accrual 1 when the
frequency is missing or unrecognised), and both legs are scheduled
annually: consecutive payment dates differ by 365 days. -/
theorem spec_C5 (d : Derivative) (yc : YieldCurve) (today : ℤ) :
    (∀ cf ∈ generate_fixed_leg_cashflows d yc today,
      cf.2 = d.fixed_rate.getD 0 * d.notional * get_accrual_period d.fixed_payment_frequency) ∧
    (∀ cf ∈ generate_floating_leg_cashflows d yc today,
      cf.2 = (interpolate_rate yc ((cf.1 - today : ℤ) : ℚ) + (d.floating_spread).getD 0) *
        d.notional * get_accrual_period d.floating_payment_frequency) ∧
    List.Chain' (fun x y : Cashflow => y.1 = x.1 + 365)
      (generate_fixed_leg_cashflows d yc today) ∧
    List.Chain' (fun x y : Cashflow => y.1 = x.1 + 365)
      (generate_floating_leg_cashflows d yc today) := by
  refine ⟨?_, ?_, ?_, ?_⟩
  · intro cf hcf
    unfold generate_fixed_leg_cashflows at hcf
    cases hfr : d.fixed_rate with
    | none => rw [hfr] at hcf; exact absurd hcf (List.not_mem_nil cf)
    | some fr =>
        rw [hfr] at hcf
        have := payLoop_amount _ 365 (by norm_num) d.end_date _ cf hcf
        rw [this]
        rfl
  · intro cf hcf
    unfold generate_floating_leg_cashflows at hcf
    have hgt := advanceWhileLe_gt 365 (by norm_num) today d.start_date
    exact (floatLegLoop_props d yc today _ _ hgt cf hcf).1
  · unfold generate_fixed_leg_cashflows
    cases d.fixed_rate with
    | none => exact List.chain'_nil
    | some fr => exact payLoop_chain _ 365 (by norm_num) d.end_date _
  · unfold generate_floating_leg_cashflows
    have hgt := advanceWhileLe_gt 365 (by norm_num) today d.start_date
    exact floatLegLoop_chain d yc today _ _ hgt

theorem spec_C5_witness :
    (10000 : ℚ) = swapQuarterly.fixed_rate.getD 0 * swapQuarterly.notional *
      get_accrual_period swapQuarterly.fixed_payment_frequency :=
  (spec_C5 swapQuarterly BASE_YIELD_CURVE 0).1 (100, 10000)
    (by
      have hacc : get_accrual_period (some sQuarterly) = 1 / 4 := rfl
      have h : generate_fixed_leg_cashflows swapQuarterly BASE_YIELD_CURVE 0 =
          [(100, 10000), (465, 10000)] := by
        simp only [generate_fixed_leg_cashflows, swapQuarterly, hacc]
        rw [advanceWhileLe.eq_def]
        norm_num
        rw [payLoop.eq_def]
        norm_num
        rw [payLoop.eq_def]
        norm_num
        rw [payLoop.eq_def]
        norm_num
      rw [h]
      norm_num)

theorem spec_C5_cex :
    generate_fixed_leg_cashflows swapQuarterly BASE_YIELD_CURVE 0 = [(100, 10000), (465, 10000)] ∧
    (10000 : ℚ) ≠ swapQuarterly.fixed_rate.getD 0 * swapQuarterly.notional := by
  have hacc : get_accrual_period (some sQuarterly) = 1 / 4 := rfl
  constructor
  · simp only [generate_fixed_leg_cashflows, swapQuarterly, hacc]
    rw [advanceWhileLe.eq_def]
    norm_num
    rw [payLoop.eq_def]
    norm_num
    rw [payLoop.eq_def]
    norm_num
    rw [payLoop.eq_def]
    norm_num
  · norm_num [swapQuarterly]

theorem md_fold_eq (yc : YieldCurve) (today : ℤ) :
    ∀ (cfs : List Cashflow) (p : ℚ × ℚ),
      cfs.foldl
        (fun (acc : ℚ × ℚ) cf =>
          if cf.1 ≤ today then acc
          else
            let days_to_payment : ℤ := cf.1 - today
            let t : ℚ := (days_to_payment : ℚ) / 365
            let discount_rate := interpolate_rate yc (days_to_payment : ℚ)
            let discount_factor := 1 / (1 + discount_rate * t)
            let pv_cf := cf.2 * discount_factor
            (acc.1 + pv_cf, acc.2 + t * pv_cf)) p =
        (p.1 + md_future_pv cfs yc today, p.2 + md_weighted_time cfs yc today) := by
  intro cfs
  induction cfs with
  | nil => intro p; simp [md_future_pv, md_weighted_time]
  | cons cf cfs ih =>
      intro p
      simp only [List.foldl_cons]
      by_cases hcf : cf.1 ≤ today
      · rw [if_pos hcf, ih]
        have hb : decide (today < cf.1) = false := decide_eq_false (not_lt.mpr hcf)
        simp [md_future_pv, md_weighted_time, List.filter_cons, hb]
      · rw [if_neg hcf, ih]
        have hb : decide (today < cf.1) = true := decide_eq_true (not_le.mp hcf)
        simp only [md_future_pv, md_weighted_time, List.filter_cons, hb, if_true,
          List.map_cons, List.sum_cons, Prod.mk.injEq]
        constructor <;> ring

/-- C7: `calculate_modified_duration` returns `None` exactly when the
schedule is empty or the present value of its strictly future flows is
zero (never a zero value, never a failure — the function is total), and
otherwise returns the Macaulay duration (PV-weighted time over total PV)
divided by one plus the average interpolated yield across the schedule's
future payment dates. -/
theorem spec_C7 (cfs : List Cashflow) (yc : YieldCurve) (today : ℤ) :
    (calculate_modified_duration cfs yc today = none ↔
      cfs = [] ∨ md_future_pv cfs yc today = 0) ∧
    (∀ q, calculate_modified_duration cfs yc today = some q →
      q = md_weighted_time cfs yc today / md_future_pv cfs yc today /
        (1 + md_avg_yield cfs yc today)) := by
  by_cases h1 : cfs = []
  · subst h1
    constructor
    · simp [calculate_modified_duration]
    · intro q hq
      simp [calculate_modified_duration] at hq
  · by_cases h2 : md_future_pv cfs yc today = 0
    · constructor
      · constructor
        · intro _
          exact Or.inr h2
        · intro _
          simp only [calculate_modified_duration, if_neg h1, md_fold_eq, zero_add, if_pos h2]
      · intro q hq
        simp only [calculate_modified_duration, if_neg h1, md_fold_eq, zero_add,
          if_pos h2] at hq
        exact absurd hq (by simp)
    · constructor
      · constructor
        · intro hq
          simp only [calculate_modified_duration, if_neg h1, md_fold_eq, zero_add,
            if_neg h2] at hq
          exact absurd hq (by simp)
        · intro hq
          rcases hq with hq | hq
          · exact absurd hq h1
          · exact absurd hq h2
      · intro q hq
        simp only [calculate_modified_duration, if_neg h1, md_fold_eq, zero_add,
          if_neg h2, Option.some.injEq] at hq
        rw [← hq]
        simp only [md_avg_yield]

theorem spec_C7_witness : calculate_modified_duration [] BASE_YIELD_CURVE 0 = none :=
  (spec_C7 [] BASE_YIELD_CURVE 0).1.mpr (Or.inl rfl)

theorem mem_insertByVal (x y : String × ℤ) :
    ∀ (l : List (String × ℤ)), y ∈ insertByVal x l ↔ y = x ∨ y ∈ l := by
  intro l
  induction l with
  | nil => simp [insertByVal]
  | cons z zs ih =>
      unfold insertByVal
      by_cases h : z.2 < x.2
      · rw [if_pos h]
        simp only [List.mem_cons, ih]
        tauto
      · rw [if_neg h]
        exact List.mem_cons

theorem mem_sortByVal (y : String × ℤ) :
    ∀ (l : List (String × ℤ)), y ∈ sortByVal l ↔ y ∈ l := by
  intro l
  induction l with
  | nil => simp [sortByVal]
  | cons z zs ih =>
      unfold sortByVal
      rw [mem_insertByVal, ih]
      simp [List.mem_cons]

theorem pairwise_insertByVal (x : String × ℤ) :
    ∀ (l : List (String × ℤ)),
      List.Pairwise (fun a b : String × ℤ => a.2 ≤ b.2) l →
      List.Pairwise (fun a b : String × ℤ => a.2 ≤ b.2) (insertByVal x l) := by
  intro l
  induction l with
  | nil => intro _; simp [insertByVal]
  | cons z zs ih =>
      intro hp
      rw [List.pairwise_cons] at hp
      unfold insertByVal
      by_cases h : z.2 < x.2
      · rw [if_pos h]
        rw [List.pairwise_cons]
        refine ⟨?_, ih hp.2⟩
        intro w hw
        rcases (mem_insertByVal x w zs).mp hw with rfl | hw'
        · exact le_of_lt h
        · exact hp.1 w hw'
      · rw [if_neg h]
        rw [List.pairwise_cons]
        refine ⟨?_, List.pairwise_cons.mpr hp⟩
        intro w hw
        rcases List.mem_cons.mp hw with rfl | hw'
        · exact not_lt.mp h
        · exact le_trans (not_lt.mp h) (hp.1 w hw')

theorem sortByVal_sorted :
    ∀ (l : List (String × ℤ)),
      List.Pairwise (fun a b : String × ℤ => a.2 ≤ b.2) (sortByVal l) := by
  intro l
  induction l with
  | nil => simp [sortByVal]
  | cons z zs ih => exact pairwise_insertByVal z (sortByVal zs) ih

theorem sorted_le_getLast :
    ∀ (l : List (String × ℤ)),
      List.Pairwise (fun a b : String × ℤ => a.2 ≤ b.2) l →
      ∀ x ∈ l, ∀ last ∈ l.getLast?, x.2 ≤ last.2 := by
  intro l
  induction l with
  | nil => intro _ x hx; exact absurd hx (List.not_mem_nil x)
  | cons a l ih =>
      intro hp x hx last hlast
      rw [List.pairwise_cons] at hp
      cases l with
      | nil =>
          simp only [List.getLast?_singleton, Option.mem_def, Option.some.injEq] at hlast
          rcases List.mem_singleton.mp hx with rfl
          rw [← hlast]
      | cons b l' =>
          rw [List.getLast?_cons_cons] at hlast
          rcases List.mem_cons.mp hx with rfl | hx'
          · have hb := ih hp.2 b (List.mem_cons_self b l') last hlast
            exact le_trans (hp.1 b (List.mem_cons_self b l')) hb
          · exact ih hp.2 x hx' last hlast

theorem scanBuckets_some (days : ℤ) :
    ∀ (l : List (String × ℤ)) (n : String), scanBuckets days l = some n → ∃ b, (n, b) ∈ l := by
  intro l
  induction l with
  | nil => intro n h; exact absurd h (by simp [scanBuckets])
  | cons p rest ih =>
      intro n h
      unfold scanBuckets at h
      by_cases h1 : p.2 = -1
      · rw [if_pos h1] at h
        obtain ⟨b, hb⟩ := ih n h
        exact ⟨b, List.mem_cons_of_mem p hb⟩
      · rw [if_neg h1] at h
        by_cases h2 : days ≤ p.2
        · rw [if_pos h2] at h
          cases h
          exact ⟨p.2, List.mem_cons_self p rest⟩
        · rw [if_neg h2] at h
          obtain ⟨b, hb⟩ := ih n h
          exact ⟨b, List.mem_cons_of_mem p hb⟩

theorem scanBuckets_none (days : ℤ) :
    ∀ (l : List (String × ℤ)), scanBuckets days l = none →
      ∀ p ∈ l, p.2 = -1 ∨ p.2 < days := by
  intro l
  induction l with
  | nil => intro _ p hp; exact absurd hp (List.not_mem_nil p)
  | cons q rest ih =>
      intro h p hp
      unfold scanBuckets at h
      by_cases h1 : q.2 = -1
      · rw [if_pos h1] at h
        rcases List.mem_cons.mp hp with rfl | hp'
        · exact Or.inl h1
        · exact ih h p hp'
      · rw [if_neg h1] at h
        by_cases h2 : days ≤ q.2
        · rw [if_pos h2] at h
          exact absurd h (by simp)
        · rw [if_neg h2] at h
          rcases List.mem_cons.mp hp with rfl | hp'
          · exact Or.inr (not_le.mp h2)
          · exact ih h p hp'

/-- C2 (amended): `get_bucket` is a total function returning exactly one
label, but a null event date returns the fixed label
`"Non-Sensitive / Undefined"` regardless of the table (not the table's
sentinel entry); for a non-null date the label is a key of the table
whenever every bound is the `-1` sentinel or non-negative and at least
one non-sentinel entry exists (as in both tables the engine uses). -/
theorem spec_C2 :
    (∀ (today : ℤ) (buckets : List (String × ℤ)),
      get_bucket none today buckets = sUndefined) ∧
    (∀ (d today : ℤ) (buckets : List (String × ℤ)),
      (∀ p ∈ buckets, p.2 = -1 ∨ 0 ≤ p.2) →
      (∃ p ∈ buckets, p.2 ≠ -1) →
      get_bucket (some d) today buckets ∈ buckets.map Prod.fst) := by
  constructor
  · intro today buckets
    rfl
  · intro d today buckets hbounds hex
    simp only [get_bucket]
    cases hscan : scanBuckets (d - today) (sortByVal buckets) with
    | some nm =>
        obtain ⟨b, hb⟩ := scanBuckets_some (d - today) (sortByVal buckets) nm hscan
        show nm ∈ buckets.map Prod.fst
        exact List.mem_map.mpr ⟨(nm, b), (mem_sortByVal _ _).mp hb, rfl⟩
    | none =>
        obtain ⟨p0, hp0mem, hp0⟩ := hex
        have hp0s : p0 ∈ sortByVal buckets := (mem_sortByVal _ _).mpr hp0mem
        have hp0lt : p0.2 < d - today := by
          rcases scanBuckets_none (d - today) (sortByVal buckets) hscan p0 hp0s with h | h
          · exact absurd h hp0
          · exact h
        have hp0nonneg : 0 ≤ p0.2 := by
          rcases hbounds p0 hp0mem with h | h
          · exact absurd h hp0
          · exact h
        cases hlast : (sortByVal buckets).getLast? with
        | none =>
            rw [List.getLast?_eq_none_iff] at hlast
            rw [hlast] at hp0s
            exact absurd hp0s (List.not_mem_nil p0)
        | some last =>
            have hlastmem : last ∈ sortByVal buckets :=
              List.mem_of_mem_getLast? (by rw [hlast]; rfl)
            have hle : p0.2 ≤ last.2 :=
              sorted_le_getLast (sortByVal buckets) (sortByVal_sorted buckets) p0 hp0s last
                (by rw [hlast]; rfl)
            have hlt : last.2 < d - today := by
              rcases scanBuckets_none (d - today) (sortByVal buckets) hscan last hlastmem with
                h | h
              · omega
              · exact h
            show (if last.2 < d - today then last.1 else sUndefined) ∈ buckets.map Prod.fst
            rw [if_pos hlt]
            exact List.mem_map.mpr ⟨last, (mem_sortByVal _ _).mp hlastmem, rfl⟩

theorem spec_C2_witness :
    get_bucket (some 100) 0 eve_buckets_def ∈ eve_buckets_def.map Prod.fst :=
  spec_C2.2 100 0 eve_buckets_def (by decide) (by decide)

theorem spec_C2_cex :
    (get_bucket none 0 eve_buckets_def = sUndefined ∧
      sUndefined ∉ eve_buckets_def.map Prod.fst) ∧
    (get_bucket (some (-2)) 0 [("X", -1)] = sUndefined ∧
      sUndefined ∉ (([("X", -1)] : List (String × ℤ)).map Prod.fst)) := by
  constructor
  · exact ⟨rfl, by decide⟩
  · exact ⟨by decide, by decide⟩

theorem bumpGap_ok_keys (data : List (String × ℚ)) (key : String) (amt : ℚ)
    (data' : List (String × ℚ)) (h : bumpGap data key amt = Except.ok data') :
    data'.map Prod.fst = data.map Prod.fst := by
  unfold bumpGap at h
  split at h
  · cases h
    rw [List.map_map]
    congr 1
    funext kv
    by_cases hk : kv.1 = key
    · simp [hk]
    · simp [hk]
  · exact absurd h (by simp)

theorem bumpGap_undefined_error (data : List (String × ℚ)) (amt : ℚ)
    (hkeys : data.map Prod.fst = eve_bucket_order) :
    bumpGap data sUndefined amt = Except.error () := by
  unfold bumpGap
  rw [if_neg]
  rw [hkeys]
  decide

theorem eveGapFold_error (today : ℤ) :
    ∀ (loans : List Loan) (data : List (String × ℚ)),
      data.map Prod.fst = eve_bucket_order →
      (∃ loan ∈ loans, loan.type ≠ sCash ∧ loan.maturity_date = none) →
      loans.foldlM
        (fun data loan =>
          if loan.type = sCash then pure data
          else bumpGap data (get_bucket loan.maturity_date today eve_buckets_def) loan.notional)
        data = Except.error () := by
  intro loans
  induction loans with
  | nil =>
      rintro data _ ⟨loan, hmem, -⟩
      exact absurd hmem (List.not_mem_nil loan)
  | cons l ls ih =>
      rintro data hkeys ⟨loan, hmem, hl⟩
      rw [List.foldlM_cons]
      rcases List.mem_cons.mp hmem with rfl | hmem'
      · rw [if_neg hl.1, hl.2]
        rw [show get_bucket none today eve_buckets_def = sUndefined from rfl]
        rw [bumpGap_undefined_error data loan.notional hkeys]
        rfl
      · by_cases hc : l.type = sCash
        · rw [if_pos hc]
          rw [show ((pure data : Except Unit (List (String × ℚ))) >>=
            fun d => ls.foldlM _ d) = ls.foldlM _ data from rfl]
          exact ih data hkeys ⟨loan, hmem', hl⟩
        · rw [if_neg hc]
          cases hb : bumpGap data (get_bucket l.maturity_date today eve_buckets_def)
              l.notional with
          | error e =>
              cases e
              rfl
          | ok data' =>
              have hkeys' : data'.map Prod.fst = eve_bucket_order := by
                rw [bumpGap_ok_keys _ _ _ _ hb, hkeys]
              exact ih data' hkeys' ⟨loan, hmem', hl⟩

/-- C3 (amended): a CD or wholesale-funding deposit with a missing
maturity date contributes zero cash flows and the run continues, as does
a loan with a missing maturity date and a non-periodic payment
frequency.  A loan with a missing maturity date is not isolated,
however: with a periodic payment frequency its cash-flow generation
compares a date against `None` and aborts, and the EVE maturity-gap loop
aborts on the hard-coded bucket label it produces, which is not a key of
the gap table. -/
theorem spec_C3 :
    (∀ (deposit : Deposit) (yield_curve : YieldCurve) (today : ℤ) (ip : Bool) (ny : ℤ)
      (beta : ℚ),
      (deposit.type = sCD ∨ deposit.type = sWholesaleFunding) →
      deposit.maturity_date = none →
      generate_deposit_cashflows deposit yield_curve today ip ny beta = Except.ok []) ∧
    (∀ (powPeriod : ℚ → ℚ) (loan : Loan) (yield_curve : YieldCurve) (today : ℤ) (ip : Bool)
      (cpr : ℚ),
      get_periods_per_year loan.payment_frequency = 0 →
      loan.maturity_date = none →
      generate_loan_cashflows powPeriod loan yield_curve today ip cpr = Except.ok []) ∧
    (∀ (powPeriod : ℚ → ℚ) (loan : Loan) (yield_curve : YieldCurve) (today : ℤ) (ip : Bool)
      (cpr : ℚ),
      get_periods_per_year loan.payment_frequency ≠ 0 →
      loan.maturity_date = none →
      generate_loan_cashflows powPeriod loan yield_curve today ip cpr = Except.error ()) ∧
    (∀ (loans : List Loan) (today : ℤ),
      (∃ loan ∈ loans, loan.type ≠ sCash ∧ loan.maturity_date = none) →
      eveGapLoanAssets loans today = Except.error ()) := by
  refine ⟨?_, ?_, ?_, ?_⟩
  · intro dep yc today ip ny beta ht hm
    simp only [generate_deposit_cashflows, if_pos ht, hm]
  · intro powPeriod loan yc today ip cpr h0 hm
    simp only [generate_loan_cashflows, dif_pos h0, hm]
  · intro powPeriod loan yc today ip cpr h0 hm
    simp only [generate_loan_cashflows, dif_neg h0, hm]
  · intro loans today hex
    unfold eveGapLoanAssets
    apply eveGapFold_error today loans _ _ hex
    decide

theorem spec_C3_witness :
    generate_deposit_cashflows cdNoMaturity BASE_YIELD_CURVE 0 true 5 (1 / 2) =
      Except.ok [] :=
  spec_C3.1 cdNoMaturity BASE_YIELD_CURVE 0 true 5 (1 / 2) (Or.inl rfl) rfl

theorem spec_C3_cex :
    generate_loan_cashflows (fun x => x) loanNoMaturity BASE_YIELD_CURVE 50 true 0 =
      Except.error () ∧
    eveGapLoanAssets [loanNoMaturity] 50 = Except.error () := by
  constructor
  · rfl
  · rfl

theorem ok_bind {α β : Type} (a : α) (f : α → Except Unit β) :
    (Except.ok a >>= f) = f a := rfl

theorem foldPVOk {α : Type} (gen : α → Except Unit (List Cashflow)) (pv : List Cashflow → ℚ)
    (skip : α → Prop) [DecidablePred skip] :
    ∀ (l : List α) (vs : List ℚ) (acc : ℚ),
      collectPVs (fun a => (gen a).map pv) skip l = Except.ok vs →
      l.foldlM
        (fun acc a =>
          if skip a then pure acc
          else do
            let cfs ← gen a
            pure (acc + pv cfs)) acc = Except.ok (acc + vs.sum) := by
  intro l
  induction l with
  | nil =>
      intro vs acc h
      simp only [collectPVs] at h
      cases h
      simp only [List.foldlM_nil, List.sum_nil, add_zero]
      rfl
  | cons a l ih =>
      intro vs acc h
      simp only [collectPVs] at h
      rw [List.foldlM_cons]
      by_cases hs : skip a
      · rw [if_pos hs] at h
        rw [if_pos hs]
        exact ih vs acc h
      · rw [if_neg hs] at h
        rw [if_neg hs]
        cases hg : gen a with
        | error e =>
            rw [hg] at h
            exact Except.noConfusion h
        | ok cfs =>
            rw [hg] at h
            cases hrest : collectPVs (fun a => (gen a).map pv) skip l with
            | error e =>
                rw [hrest] at h
                exact Except.noConfusion h
            | ok vs' =>
                rw [hrest] at h
                have hv : pv cfs :: vs' = vs := Except.ok.inj h
                subst hv
                have hrec := ih vs' (acc + pv cfs) hrest
                exact hrec.trans (congrArg Except.ok (by rw [List.sum_cons]; ring))

theorem derivFold_eq (yc : YieldCurve) (today : ℤ) :
    ∀ (ds : List Derivative) (p : ℚ × ℚ),
      ds.foldl
        (fun (acc : ℚ × ℚ) derivative =>
          let fixed_pv := calculate_fixed_leg_pv derivative yc today
          let floating_pv := calculate_floating_leg_pv derivative yc today
          if derivative.subtype = sReceiverSwap then (acc.1 + fixed_pv, acc.2 + floating_pv)
          else if derivative.subtype = sPayerSwap then (acc.1 + floating_pv, acc.2 + fixed_pv)
          else (acc.1 + fixed_pv, acc.2 + floating_pv)) p =
      (p.1 + (ds.map (derivative_asset_leg_pv yc today)).sum,
        p.2 + (ds.map (derivative_liability_leg_pv yc today)).sum) := by
  intro ds
  induction ds with
  | nil => intro p; simp
  | cons d ds ih =>
      intro p
      simp only [List.foldl_cons, List.map_cons, List.sum_cons]
      by_cases h1 : d.subtype = sReceiverSwap
      · simp only [if_pos h1]
        rw [ih]
        simp only [derivative_asset_leg_pv, derivative_liability_leg_pv, if_pos h1,
          Prod.mk.injEq]
        constructor <;> ring
      · by_cases h2 : d.subtype = sPayerSwap
        · simp only [if_neg h1, if_pos h2]
          rw [ih]
          simp only [derivative_asset_leg_pv, derivative_liability_leg_pv, if_neg h1,
            if_pos h2, Prod.mk.injEq]
          constructor <;> ring
        · simp only [if_neg h1, if_neg h2]
          rw [ih]
          simp only [derivative_asset_leg_pv, derivative_liability_leg_pv, if_neg h1,
            if_neg h2, Prod.mk.injEq]
          constructor <;> ring

/-- C1: whenever every (non-`Cash`) loan schedule and every
(non-`Equity`) deposit schedule generates successfully, the EVE section
of `calculate_nii_and_eve_for_curve` returns exactly
`Σ PV(asset schedules) − |Σ PV(liability schedules)| + 0`, where the
asset sum is the loan PVs plus each swap's asset-side leg PV (fixed for a
receiver swap, floating for a payer swap, fixed otherwise), the
liability sum is the deposit PVs plus each swap's liability-side leg PV,
and the separately reported derivative total is the never-updated `0`. -/
theorem spec_C1 (powPeriod : ℚ → ℚ) (loans : List Loan) (deposits : List Deposit)
    (derivatives : List Derivative) (yield_curve : YieldCurve) (today : ℤ)
    (nmd_effective_maturity_years : ℤ) (nmd_deposit_beta prepayment_rate : ℚ)
    (loan_pvs deposit_pvs : List ℚ)
    (hl : collectPVs (loan_schedule_pv powPeriod yield_curve today prepayment_rate)
      (fun loan => loan.type = sCash) loans = Except.ok loan_pvs)
    (hd : collectPVs
      (deposit_schedule_pv yield_curve today nmd_effective_maturity_years nmd_deposit_beta)
      (fun deposit => deposit.type = sEquity) deposits = Except.ok deposit_pvs) :
    calculate_eve_for_curve powPeriod loans deposits derivatives yield_curve today
        nmd_effective_maturity_years nmd_deposit_beta prepayment_rate =
      Except.ok
        ⟨loan_pvs.sum + (derivatives.map (derivative_asset_leg_pv yield_curve today)).sum -
            |deposit_pvs.sum +
              (derivatives.map (derivative_liability_leg_pv yield_curve today)).sum| + 0,
          loan_pvs.sum + (derivatives.map (derivative_asset_leg_pv yield_curve today)).sum,
          |deposit_pvs.sum +
            (derivatives.map (derivative_liability_leg_pv yield_curve today)).sum|,
          0⟩ := by
  have h1 := foldPVOk
    (fun loan => generate_loan_cashflows powPeriod loan yield_curve today true prepayment_rate)
    (fun cfs => calculate_pv_of_cashflows cfs yield_curve today)
    (fun loan => loan.type = sCash) loans loan_pvs 0 hl
  have h2 := foldPVOk
    (fun deposit => generate_deposit_cashflows deposit yield_curve today true
      nmd_effective_maturity_years nmd_deposit_beta)
    (fun cfs => calculate_pv_of_cashflows cfs yield_curve today)
    (fun deposit => deposit.type = sEquity) deposits deposit_pvs 0 hd
  unfold calculate_eve_for_curve
  rw [h1]
  rw [ok_bind]
  rw [h2]
  rw [ok_bind]
  rw [derivFold_eq]
  norm_num
  rfl

theorem spec_C1_witness :
    calculate_eve_for_curve (fun x => x) [loanBullet] [cdNoMaturity] [] BASE_YIELD_CURVE 0 5
        (1 / 2) 0 =
      Except.ok ⟨loanBullet_pv, loanBullet_pv, 0, 0⟩ := by
  have h := spec_C1 (fun x => x) [loanBullet] [cdNoMaturity] [] BASE_YIELD_CURVE 0 5 (1 / 2) 0
    [loanBullet_pv] [(0 : ℚ)] (by rfl) (by rfl)
  simpa using h

theorem linear_mono (r1 r2 a w d d' : ℚ) (hw : 0 < w) (hd : d ≤ d') (hr : r1 ≤ r2) :
    r1 + (r2 - r1) * (d - a) / w ≤ r1 + (r2 - r1) * (d' - a) / w := by
  have hmul : (r2 - r1) * (d - a) ≤ (r2 - r1) * (d' - a) :=
    mul_le_mul_of_nonneg_left (by linarith) (by linarith)
  exact add_le_add_left ((div_le_div_right hw).mpr hmul) r1

theorem linear_anti (r1 r2 a w d d' : ℚ) (hw : 0 < w) (hd : d ≤ d') (hr : r2 ≤ r1) :
    r1 + (r2 - r1) * (d' - a) / w ≤ r1 + (r2 - r1) * (d - a) / w := by
  have hmul : (r2 - r1) * (d' - a) ≤ (r2 - r1) * (d - a) :=
    mul_le_mul_of_nonpos_left (by linarith) (by linarith)
  exact add_le_add_left ((div_le_div_right hw).mpr hmul) r1

theorem interp_low (c : YieldCurve) (d : ℚ) (h : d ≤ 30) :
    interpolate_rate c d = c.r1M := by
  unfold interpolate_rate
  by_cases h0 : d ≤ (0 : ℚ)
  · rw [if_pos h0]
  · rw [if_neg h0, if_pos h]

theorem interp_high (c : YieldCurve) (d : ℚ) (h : 10950 ≤ d) :
    interpolate_rate c d = c.r30Y := by
  unfold interpolate_rate
  rw [if_neg (show ¬d ≤ (0 : ℚ) by linarith), if_neg (show ¬d ≤ (30 : ℚ) by linarith),
    if_pos h]

theorem interp_seg0 (c : YieldCurve) (d : ℚ) (h1 : 30 ≤ d) (h2 : d ≤ 90) :
    interpolate_rate c d = c.r1M + (c.r3M - c.r1M) * (d - 30) / (90 - 30) := by
  rcases eq_or_lt_of_le h1 with he | hgt
  ·
    subst he
    simp only [interpolate_rate, tenorPairs, scanBrackets]
    norm_num
    try ring
  ·
    have hgtcase : interpolate_rate c d = c.r1M + (c.r3M - c.r1M) * (d - 30) / (90 - 30) := by
      simp only [interpolate_rate, tenorPairs, scanBrackets]
      rw [if_neg (show ¬d ≤ (0 : ℚ) by linarith),
      if_neg (show ¬d ≤ (30 : ℚ) by linarith),
      if_neg (show ¬(10950 : ℚ) ≤ d by linarith),
      if_neg (show ¬(30 : ℚ) = 90 by norm_num),
      if_pos (show ((30 : ℚ) ≤ d ∧ d ≤ 90) from ⟨le_of_lt hgt, h2⟩)]
    exact hgtcase

theorem interp_seg1 (c : YieldCurve) (d : ℚ) (h1 : 90 ≤ d) (h2 : d ≤ 180) :
    interpolate_rate c d = c.r3M + (c.r6M - c.r3M) * (d - 90) / (180 - 90) := by
  rcases eq_or_lt_of_le h1 with he | hgt
  ·
    subst he
    simp only [interpolate_rate, tenorPairs, scanBrackets]
    norm_num
    try ring
  ·
    have hgtcase : interpolate_rate c d = c.r3M + (c.r6M - c.r3M) * (d - 90) / (180 - 90) := by
      simp only [interpolate_rate, tenorPairs, scanBrackets]
      rw [if_neg (show ¬d ≤ (0 : ℚ) by linarith),
      if_neg (show ¬d ≤ (30 : ℚ) by linarith),
      if_neg (show ¬(10950 : ℚ) ≤ d by linarith),
      if_neg (show ¬(30 : ℚ) = 90 by norm_num),
      if_neg (show ¬((30 : ℚ) ≤ d ∧ d ≤ 90) by rintro ⟨-, hx⟩; linarith),
      if_neg (show ¬(90 : ℚ) = 180 by norm_num),
      if_pos (show ((90 : ℚ) ≤ d ∧ d ≤ 180) from ⟨le_of_lt hgt, h2⟩)]
    exact hgtcase

theorem interp_seg2 (c : YieldCurve) (d : ℚ) (h1 : 180 ≤ d) (h2 : d ≤ 365) :
    interpolate_rate c d = c.r6M + (c.r1Y - c.r6M) * (d - 180) / (365 - 180) := by
  rcases eq_or_lt_of_le h1 with he | hgt
  ·
    subst he
    simp only [interpolate_rate, tenorPairs, scanBrackets]
    norm_num
    try ring
  ·
    have hgtcase : interpolate_rate c d = c.r6M + (c.r1Y - c.r6M) * (d - 180) / (365 - 180) := by
      simp only [interpolate_rate, tenorPairs, scanBrackets]
      rw [if_neg (show ¬d ≤ (0 : ℚ) by linarith),
      if_neg (show ¬d ≤ (30 : ℚ) by linarith),
      if_neg (show ¬(10950 : ℚ) ≤ d by linarith),
      if_neg (show ¬(30 : ℚ) = 90 by norm_num),
      if_neg (show ¬((30 : ℚ) ≤ d ∧ d ≤ 90) by rintro ⟨-, hx⟩; linarith),
      if_neg (show ¬(90 : ℚ) = 180 by norm_num),
      if_neg (show ¬((90 : ℚ) ≤ d ∧ d ≤ 180) by rintro ⟨-, hx⟩; linarith),
      if_neg (show ¬(180 : ℚ) = 365 by norm_num),
      if_pos (show ((180 : ℚ) ≤ d ∧ d ≤ 365) from ⟨le_of_lt hgt, h2⟩)]
    exact hgtcase

theorem interp_seg3 (c : YieldCurve) (d : ℚ) (h1 : 365 ≤ d) (h2 : d ≤ 730) :
    interpolate_rate c d = c.r1Y + (c.r2Y - c.r1Y) * (d - 365) / (730 - 365) := by
  rcases eq_or_lt_of_le h1 with he | hgt
  ·
    subst he
    simp only [interpolate_rate, tenorPairs, scanBrackets]
    norm_num
    try ring
  ·
    have hgtcase : interpolate_rate c d = c.r1Y + (c.r2Y - c.r1Y) * (d - 365) / (730 - 365) := by
      simp only [interpolate_rate, tenorPairs, scanBrackets]
      rw [if_neg (show ¬d ≤ (0 : ℚ) by linarith),
      if_neg (show ¬d ≤ (30 : ℚ) by linarith),
      if_neg (show ¬(10950 : ℚ) ≤ d by linarith),
      if_neg (show ¬(30 : ℚ) = 90 by norm_num),
      if_neg (show ¬((30 : ℚ) ≤ d ∧ d ≤ 90) by rintro ⟨-, hx⟩; linarith),
      if_neg (show ¬(90 : ℚ) = 180 by norm_num),
      if_neg (show ¬((90 : ℚ) ≤ d ∧ d ≤ 180) by rintro ⟨-, hx⟩; linarith),
      if_neg (show ¬(180 : ℚ) = 365 by norm_num),
      if_neg (show ¬((180 : ℚ) ≤ d ∧ d ≤ 365) by rintro ⟨-, hx⟩; linarith),
      if_neg (show ¬(365 : ℚ) = 730 by norm_num),
      if_pos (show ((365 : ℚ) ≤ d ∧ d ≤ 730) from ⟨le_of_lt hgt, h2⟩)]
    exact hgtcase

theorem interp_seg4 (c : YieldCurve) (d : ℚ) (h1 : 730 ≤ d) (h2 : d ≤ 1095) :
    interpolate_rate c d = c.r2Y + (c.r3Y - c.r2Y) * (d - 730) / (1095 - 730) := by
  rcases eq_or_lt_of_le h1 with he | hgt
  ·
    subst he
    simp only [interpolate_rate, tenorPairs, scanBrackets]
    norm_num
    try ring
  ·
    have hgtcase : interpolate_rate c d = c.r2Y + (c.r3Y - c.r2Y) * (d - 730) / (1095 - 730) := by
      simp only [interpolate_rate, tenorPairs, scanBrackets]
      rw [if_neg (show ¬d ≤ (0 : ℚ) by linarith),
      if_neg (show ¬d ≤ (30 : ℚ) by linarith),
      if_neg (show ¬(10950 : ℚ) ≤ d by linarith),
      if_neg (show ¬(30 : ℚ) = 90 by norm_num),
      if_neg (show ¬((30 : ℚ) ≤ d ∧ d ≤ 90) by rintro ⟨-, hx⟩; linarith),
      if_neg (show ¬(90 : ℚ) = 180 by norm_num),
      if_neg (show ¬((90 : ℚ) ≤ d ∧ d ≤ 180) by rintro ⟨-, hx⟩; linarith),
      if_neg (show ¬(180 : ℚ) = 365 by norm_num),
      if_neg (show ¬((180 : ℚ) ≤ d ∧ d ≤ 365) by rintro ⟨-, hx⟩; linarith),
      if_neg (show ¬(365 : ℚ) = 730 by norm_num),
      if_neg (show ¬((365 : ℚ) ≤ d ∧ d ≤ 730) by rintro ⟨-, hx⟩; linarith),
      if_neg (show ¬(730 : ℚ) = 1095 by norm_num),
      if_pos (show ((730 : ℚ) ≤ d ∧ d ≤ 1095) from ⟨le_of_lt hgt, h2⟩)]
    exact hgtcase

theorem interp_seg5 (c : YieldCurve) (d : ℚ) (h1 : 1095 ≤ d) (h2 : d ≤ 1825) :
    interpolate_rate c d = c.r3Y + (c.r5Y - c.r3Y) * (d - 1095) / (1825 - 1095) := by
  rcases eq_or_lt_of_le h1 with he | hgt
  ·
    subst he
    simp only [interpolate_rate, tenorPairs, scanBrackets]
    norm_num
    try ring
  ·
    have hgtcase : interpolate_rate c d = c.r3Y + (c.r5Y - c.r3Y) * (d - 1095) / (1825 - 1095) := by
      simp only [interpolate_rate, tenorPairs, scanBrackets]
      rw [if_neg (show ¬d ≤ (0 : ℚ) by linarith),
      if_neg (show ¬d ≤ (30 : ℚ) by linarith),
      if_neg (show ¬(10950 : ℚ) ≤ d by linarith),
      if_neg (show ¬(30 : ℚ) = 90 by norm_num),
      if_neg (show ¬((30 : ℚ) ≤ d ∧ d ≤ 90) by rintro ⟨-, hx⟩; linarith),
      if_neg (show ¬(90 : ℚ) = 180 by norm_num),
      if_neg (show ¬((90 : ℚ) ≤ d ∧ d ≤ 180) by rintro ⟨-, hx⟩; linarith),
      if_neg (show ¬(180 : ℚ) = 365 by norm_num),
      if_neg (show ¬((180 : ℚ) ≤ d ∧ d ≤ 365) by rintro ⟨-, hx⟩; linarith),
      if_neg (show ¬(365 : ℚ) = 730 by norm_num),
      if_neg (show ¬((365 : ℚ) ≤ d ∧ d ≤ 730) by rintro ⟨-, hx⟩; linarith),
      if_neg (show ¬(730 : ℚ) = 1095 by norm_num),
      if_neg (show ¬((730 : ℚ) ≤ d ∧ d ≤ 1095) by rintro ⟨-, hx⟩; linarith),
      if_neg (show ¬(1095 : ℚ) = 1825 by norm_num),
      if_pos (show ((1095 : ℚ) ≤ d ∧ d ≤ 1825) from ⟨le_of_lt hgt, h2⟩)]
    exact hgtcase

theorem interp_seg6 (c : YieldCurve) (d : ℚ) (h1 : 1825 ≤ d) (h2 : d ≤ 2555) :
    interpolate_rate c d = c.r5Y + (c.r7Y - c.r5Y) * (d - 1825) / (2555 - 1825) := by
  rcases eq_or_lt_of_le h1 with he | hgt
  ·
    subst he
    simp only [interpolate_rate, tenorPairs, scanBrackets]
    norm_num
    try ring
  ·
    have hgtcase : interpolate_rate c d = c.r5Y + (c.r7Y - c.r5Y) * (d - 1825) / (2555 - 1825) := by
      simp only [interpolate_rate, tenorPairs, scanBrackets]
      rw [if_neg (show ¬d ≤ (0 : ℚ) by linarith),
      if_neg (show ¬d ≤ (30 : ℚ) by linarith),
      if_neg (show ¬(10950 : ℚ) ≤ d by linarith),
      if_neg (show ¬(30 : ℚ) = 90 by norm_num),
      if_neg (show ¬((30 : ℚ) ≤ d ∧ d ≤ 90) by rintro ⟨-, hx⟩; linarith),
      if_neg (show ¬(90 : ℚ) = 180 by norm_num),
      if_neg (show ¬((90 : ℚ) ≤ d ∧ d ≤ 180) by rintro ⟨-, hx⟩; linarith),
      if_neg (show ¬(180 : ℚ) = 365 by norm_num),
      if_neg (show ¬((180 : ℚ) ≤ d ∧ d ≤ 365) by rintro ⟨-, hx⟩; linarith),
      if_neg (show ¬(365 : ℚ) = 730 by norm_num),
      if_neg (show ¬((365 : ℚ) ≤ d ∧ d ≤ 730) by rintro ⟨-, hx⟩; linarith),
      if_neg (show ¬(730 : ℚ) = 1095 by norm_num),
      if_neg (show ¬((730 : ℚ) ≤ d ∧ d ≤ 1095) by rintro ⟨-, hx⟩; linarith),
      if_neg (show ¬(1095 : ℚ) = 1825 by norm_num),
      if_neg (show ¬((1095 : ℚ) ≤ d ∧ d ≤ 1825) by rintro ⟨-, hx⟩; linarith),
      if_neg (show ¬(1825 : ℚ) = 2555 by norm_num),
      if_pos (show ((1825 : ℚ) ≤ d ∧ d ≤ 2555) from ⟨le_of_lt hgt, h2⟩)]
    exact hgtcase

theorem interp_seg7 (c : YieldCurve) (d : ℚ) (h1 : 2555 ≤ d) (h2 : d ≤ 3650) :
    interpolate_rate c d = c.r7Y + (c.r10Y - c.r7Y) * (d - 2555) / (3650 - 2555) := by
  rcases eq_or_lt_of_le h1 with he | hgt
  ·
    subst he
    simp only [interpolate_rate, tenorPairs, scanBrackets]
    norm_num
    try ring
  ·
    have hgtcase : interpolate_rate c d = c.r7Y + (c.r10Y - c.r7Y) * (d - 2555) / (3650 - 2555) := by
      simp only [interpolate_rate, tenorPairs, scanBrackets]
      rw [if_neg (show ¬d ≤ (0 : ℚ) by linarith),
      if_neg (show ¬d ≤ (30 : ℚ) by linarith),
      if_neg (show ¬(10950 : ℚ) ≤ d by linarith),
      if_neg (show ¬(30 : ℚ) = 90 by norm_num),
      if_neg (show ¬((30 : ℚ) ≤ d ∧ d ≤ 90) by rintro ⟨-, hx⟩; linarith),
      if_neg (show ¬(90 : ℚ) = 180 by norm_num),
      if_neg (show ¬((90 : ℚ) ≤ d ∧ d ≤ 180) by rintro ⟨-, hx⟩; linarith),
      if_neg (show ¬(180 : ℚ) = 365 by norm_num),
      if_neg (show ¬((180 : ℚ) ≤ d ∧ d ≤ 365) by rintro ⟨-, hx⟩; linarith),
      if_neg (show ¬(365 : ℚ) = 730 by norm_num),
      if_neg (show ¬((365 : ℚ) ≤ d ∧ d ≤ 730) by rintro ⟨-, hx⟩; linarith),
      if_neg (show ¬(730 : ℚ) = 1095 by norm_num),
      if_neg (show ¬((730 : ℚ) ≤ d ∧ d ≤ 1095) by rintro ⟨-, hx⟩; linarith),
      if_neg (show ¬(1095 : ℚ) = 1825 by norm_num),
      if_neg (show ¬((1095 : ℚ) ≤ d ∧ d ≤ 1825) by rintro ⟨-, hx⟩; linarith),
      if_neg (show ¬(1825 : ℚ) = 2555 by norm_num),
      if_neg (show ¬((1825 : ℚ) ≤ d ∧ d ≤ 2555) by rintro ⟨-, hx⟩; linarith),
      if_neg (show ¬(2555 : ℚ) = 3650 by norm_num),
      if_pos (show ((2555 : ℚ) ≤ d ∧ d ≤ 3650) from ⟨le_of_lt hgt, h2⟩)]
    exact hgtcase

theorem interp_seg8 (c : YieldCurve) (d : ℚ) (h1 : 3650 ≤ d) (h2 : d ≤ 5475) :
    interpolate_rate c d = c.r10Y + (c.r15Y - c.r10Y) * (d - 3650) / (5475 - 3650) := by
  rcases eq_or_lt_of_le h1 with he | hgt
  ·
    subst he
    simp only [interpolate_rate, tenorPairs, scanBrackets]
    norm_num
    try ring
  ·
    have hgtcase : interpolate_rate c d = c.r10Y + (c.r15Y - c.r10Y) * (d - 3650) / (5475 - 3650) := by
      simp only [interpolate_rate, tenorPairs, scanBrackets]
      rw [if_neg (show ¬d ≤ (0 : ℚ) by linarith),
      if_neg (show ¬d ≤ (30 : ℚ) by linarith),
      if_neg (show ¬(10950 : ℚ) ≤ d by linarith),
      if_neg (show ¬(30 : ℚ) = 90 by norm_num),
      if_neg (show ¬((30 : ℚ) ≤ d ∧ d ≤ 90) by rintro ⟨-, hx⟩; linarith),
      if_neg (show ¬(90 : ℚ) = 180 by norm_num),
      if_neg (show ¬((90 : ℚ) ≤ d ∧ d ≤ 180) by rintro ⟨-, hx⟩; linarith),
      if_neg (show ¬(180 : ℚ) = 365 by norm_num),
      if_neg (show ¬((180 : ℚ) ≤ d ∧ d ≤ 365) by rintro ⟨-, hx⟩; linarith),
      if_neg (show ¬(365 : ℚ) = 730 by norm_num),
      if_neg (show ¬((365 : ℚ) ≤ d ∧ d ≤ 730) by rintro ⟨-, hx⟩; linarith),
      if_neg (show ¬(730 : ℚ) = 1095 by norm_num),
      if_neg (show ¬((730 : ℚ) ≤ d ∧ d ≤ 1095) by rintro ⟨-, hx⟩; linarith),
      if_neg (show ¬(1095 : ℚ) = 1825 by norm_num),
      if_neg (show ¬((1095 : ℚ) ≤ d ∧ d ≤ 1825) by rintro ⟨-, hx⟩; linarith),
      if_neg (show ¬(1825 : ℚ) = 2555 by norm_num),
      if_neg (show ¬((1825 : ℚ) ≤ d ∧ d ≤ 2555) by rintro ⟨-, hx⟩; linarith),
      if_neg (show ¬(2555 : ℚ) = 3650 by norm_num),
      if_neg (show ¬((2555 : ℚ) ≤ d ∧ d ≤ 3650) by rintro ⟨-, hx⟩; linarith),
      if_neg (show ¬(3650 : ℚ) = 5475 by norm_num),
      if_pos (show ((3650 : ℚ) ≤ d ∧ d ≤ 5475) from ⟨le_of_lt hgt, h2⟩)]
    exact hgtcase

theorem interp_seg9 (c : YieldCurve) (d : ℚ) (h1 : 5475 ≤ d) (h2 : d ≤ 7300) :
    interpolate_rate c d = c.r15Y + (c.r20Y - c.r15Y) * (d - 5475) / (7300 - 5475) := by
  rcases eq_or_lt_of_le h1 with he | hgt
  ·
    subst he
    simp only [interpolate_rate, tenorPairs, scanBrackets]
    norm_num
    try ring
  ·
    have hgtcase : interpolate_rate c d = c.r15Y + (c.r20Y - c.r15Y) * (d - 5475) / (7300 - 5475) := by
      simp only [interpolate_rate, tenorPairs, scanBrackets]
      rw [if_neg (show ¬d ≤ (0 : ℚ) by linarith),
      if_neg (show ¬d ≤ (30 : ℚ) by linarith),
      if_neg (show ¬(10950 : ℚ) ≤ d by linarith),
      if_neg (show ¬(30 : ℚ) = 90 by norm_num),
      if_neg (show ¬((30 : ℚ) ≤ d ∧ d ≤ 90) by rintro ⟨-, hx⟩; linarith),
      if_neg (show ¬(90 : ℚ) = 180 by norm_num),
      if_neg (show ¬((90 : ℚ) ≤ d ∧ d ≤ 180) by rintro ⟨-, hx⟩; linarith),
      if_neg (show ¬(180 : ℚ) = 365 by norm_num),
      if_neg (show ¬((180 : ℚ) ≤ d ∧ d ≤ 365) by rintro ⟨-, hx⟩; linarith),
      if_neg (show ¬(365 : ℚ) = 730 by norm_num),
      if_neg (show ¬((365 : ℚ) ≤ d ∧ d ≤ 730) by rintro ⟨-, hx⟩; linarith),
      if_neg (show ¬(730 : ℚ) = 1095 by norm_num),
      if_neg (show ¬((730 : ℚ) ≤ d ∧ d ≤ 1095) by rintro ⟨-, hx⟩; linarith),
      if_neg (show ¬(1095 : ℚ) = 1825 by norm_num),
      if_neg (show ¬((1095 : ℚ) ≤ d ∧ d ≤ 1825) by rintro ⟨-, hx⟩; linarith),
      if_neg (show ¬(1825 : ℚ) = 2555 by norm_num),
      if_neg (show ¬((1825 : ℚ) ≤ d ∧ d ≤ 2555) by rintro ⟨-, hx⟩; linarith),
      if_neg (show ¬(2555 : ℚ) = 3650 by norm_num),
      if_neg (show ¬((2555 : ℚ) ≤ d ∧ d ≤ 3650) by rintro ⟨-, hx⟩; linarith),
      if_neg (show ¬(3650 : ℚ) = 5475 by norm_num),
      if_neg (show ¬((3650 : ℚ) ≤ d ∧ d ≤ 5475) by rintro ⟨-, hx⟩; linarith),
      if_neg (show ¬(5475 : ℚ) = 7300 by norm_num),
      if_pos (show ((5475 : ℚ) ≤ d ∧ d ≤ 7300) from ⟨le_of_lt hgt, h2⟩)]
    exact hgtcase

theorem interp_seg10 (c : YieldCurve) (d : ℚ) (h1 : 7300 ≤ d) (h2 : d ≤ 10950) :
    interpolate_rate c d = c.r20Y + (c.r30Y - c.r20Y) * (d - 7300) / (10950 - 7300) := by
  rcases eq_or_lt_of_le h2 with he2 | hlt2
  · subst he2
    simp only [interpolate_rate, tenorPairs, scanBrackets]
    norm_num
    try ring
  · rcases eq_or_lt_of_le h1 with he | hgt
    · subst he
      simp only [interpolate_rate, tenorPairs, scanBrackets]
      norm_num
      try ring
    · have hgtcase : interpolate_rate c d = c.r20Y + (c.r30Y - c.r20Y) * (d - 7300) / (10950 - 7300) := by
        simp only [interpolate_rate, tenorPairs, scanBrackets]
        rw [if_neg (show ¬d ≤ (0 : ℚ) by linarith),
        if_neg (show ¬d ≤ (30 : ℚ) by linarith),
        if_neg (show ¬(10950 : ℚ) ≤ d by linarith),
        if_neg (show ¬(30 : ℚ) = 90 by norm_num),
        if_neg (show ¬((30 : ℚ) ≤ d ∧ d ≤ 90) by rintro ⟨-, hx⟩; linarith),
        if_neg (show ¬(90 : ℚ) = 180 by norm_num),
        if_neg (show ¬((90 : ℚ) ≤ d ∧ d ≤ 180) by rintro ⟨-, hx⟩; linarith),
        if_neg (show ¬(180 : ℚ) = 365 by norm_num),
        if_neg (show ¬((180 : ℚ) ≤ d ∧ d ≤ 365) by rintro ⟨-, hx⟩; linarith),
        if_neg (show ¬(365 : ℚ) = 730 by norm_num),
        if_neg (show ¬((365 : ℚ) ≤ d ∧ d ≤ 730) by rintro ⟨-, hx⟩; linarith),
        if_neg (show ¬(730 : ℚ) = 1095 by norm_num),
        if_neg (show ¬((730 : ℚ) ≤ d ∧ d ≤ 1095) by rintro ⟨-, hx⟩; linarith),
        if_neg (show ¬(1095 : ℚ) = 1825 by norm_num),
        if_neg (show ¬((1095 : ℚ) ≤ d ∧ d ≤ 1825) by rintro ⟨-, hx⟩; linarith),
        if_neg (show ¬(1825 : ℚ) = 2555 by norm_num),
        if_neg (show ¬((1825 : ℚ) ≤ d ∧ d ≤ 2555) by rintro ⟨-, hx⟩; linarith),
        if_neg (show ¬(2555 : ℚ) = 3650 by norm_num),
        if_neg (show ¬((2555 : ℚ) ≤ d ∧ d ≤ 3650) by rintro ⟨-, hx⟩; linarith),
        if_neg (show ¬(3650 : ℚ) = 5475 by norm_num),
        if_neg (show ¬((3650 : ℚ) ≤ d ∧ d ≤ 5475) by rintro ⟨-, hx⟩; linarith),
        if_neg (show ¬(5475 : ℚ) = 7300 by norm_num),
        if_neg (show ¬((5475 : ℚ) ≤ d ∧ d ≤ 7300) by rintro ⟨-, hx⟩; linarith),
        if_neg (show ¬(7300 : ℚ) = 10950 by norm_num),
        if_pos (show ((7300 : ℚ) ≤ d ∧ d ≤ 10950) from ⟨le_of_lt hgt, le_of_lt hlt2⟩)]
      exact hgtcase

/-- C9: between any two adjacent points of the twelve-tenor ladder,
`interpolate_rate` is monotone in the direction of the curve segment;
any day count at or below the shortest tenor (including non-positive
ones) returns the shortest rate, and any day count at or above the
longest tenor returns the longest rate. -/
theorem spec_C9 :
    (∀ (c : YieldCurve) (i : Fin 11) (d d' : ℚ),
      ladderDays i.castSucc ≤ d → d ≤ d' → d' ≤ ladderDays i.succ →
      (ladderRate c i.castSucc ≤ ladderRate c i.succ →
        interpolate_rate c d ≤ interpolate_rate c d') ∧
      (ladderRate c i.succ ≤ ladderRate c i.castSucc →
        interpolate_rate c d' ≤ interpolate_rate c d)) ∧
    (∀ (c : YieldCurve) (d : ℚ), d ≤ 30 → interpolate_rate c d = c.r1M) ∧
    (∀ (c : YieldCurve) (d : ℚ), 10950 ≤ d → interpolate_rate c d = c.r30Y) := by
  refine ⟨?_, ?_, ?_⟩
  · intro c i d d' h1 hdd h2
    fin_cases i
    · constructor
      · intro hr
        rw [interp_seg0 c d h1 (le_trans hdd h2), interp_seg0 c d' (le_trans h1 hdd) h2]
        exact linear_mono _ _ _ _ _ _ (by norm_num) hdd hr
      · intro hr
        rw [interp_seg0 c d h1 (le_trans hdd h2), interp_seg0 c d' (le_trans h1 hdd) h2]
        exact linear_anti _ _ _ _ _ _ (by norm_num) hdd hr
    · constructor
      · intro hr
        rw [interp_seg1 c d h1 (le_trans hdd h2), interp_seg1 c d' (le_trans h1 hdd) h2]
        exact linear_mono _ _ _ _ _ _ (by norm_num) hdd hr
      · intro hr
        rw [interp_seg1 c d h1 (le_trans hdd h2), interp_seg1 c d' (le_trans h1 hdd) h2]
        exact linear_anti _ _ _ _ _ _ (by norm_num) hdd hr
    · constructor
      · intro hr
        rw [interp_seg2 c d h1 (le_trans hdd h2), interp_seg2 c d' (le_trans h1 hdd) h2]
        exact linear_mono _ _ _ _ _ _ (by norm_num) hdd hr
      · intro hr
        rw [interp_seg2 c d h1 (le_trans hdd h2), interp_seg2 c d' (le_trans h1 hdd) h2]
        exact linear_anti _ _ _ _ _ _ (by norm_num) hdd hr
    · constructor
      · intro hr
        rw [interp_seg3 c d h1 (le_trans hdd h2), interp_seg3 c d' (le_trans h1 hdd) h2]
        exact linear_mono _ _ _ _ _ _ (by norm_num) hdd hr
      · intro hr
        rw [interp_seg3 c d h1 (le_trans hdd h2), interp_seg3 c d' (le_trans h1 hdd) h2]
        exact linear_anti _ _ _ _ _ _ (by norm_num) hdd hr
    · constructor
      · intro hr
        rw [interp_seg4 c d h1 (le_trans hdd h2), interp_seg4 c d' (le_trans h1 hdd) h2]
        exact linear_mono _ _ _ _ _ _ (by norm_num) hdd hr
      · intro hr
        rw [interp_seg4 c d h1 (le_trans hdd h2), interp_seg4 c d' (le_trans h1 hdd) h2]
        exact linear_anti _ _ _ _ _ _ (by norm_num) hdd hr
    · constructor
      · intro hr
        rw [interp_seg5 c d h1 (le_trans hdd h2), interp_seg5 c d' (le_trans h1 hdd) h2]
        exact linear_mono _ _ _ _ _ _ (by norm_num) hdd hr
      · intro hr
        rw [interp_seg5 c d h1 (le_trans hdd h2), interp_seg5 c d' (le_trans h1 hdd) h2]
        exact linear_anti _ _ _ _ _ _ (by norm_num) hdd hr
    · constructor
      · intro hr
        rw [interp_seg6 c d h1 (le_trans hdd h2), interp_seg6 c d' (le_trans h1 hdd) h2]
        exact linear_mono _ _ _ _ _ _ (by norm_num) hdd hr
      · intro hr
        rw [interp_seg6 c d h1 (le_trans hdd h2), interp_seg6 c d' (le_trans h1 hdd) h2]
        exact linear_anti _ _ _ _ _ _ (by norm_num) hdd hr
    · constructor
      · intro hr
        rw [interp_seg7 c d h1 (le_trans hdd h2), interp_seg7 c d' (le_trans h1 hdd) h2]
        exact linear_mono _ _ _ _ _ _ (by norm_num) hdd hr
      · intro hr
        rw [interp_seg7 c d h1 (le_trans hdd h2), interp_seg7 c d' (le_trans h1 hdd) h2]
        exact linear_anti _ _ _ _ _ _ (by norm_num) hdd hr
    · constructor
      · intro hr
        rw [interp_seg8 c d h1 (le_trans hdd h2), interp_seg8 c d' (le_trans h1 hdd) h2]
        exact linear_mono _ _ _ _ _ _ (by norm_num) hdd hr
      · intro hr
        rw [interp_seg8 c d h1 (le_trans hdd h2), interp_seg8 c d' (le_trans h1 hdd) h2]
        exact linear_anti _ _ _ _ _ _ (by norm_num) hdd hr
    · constructor
      · intro hr
        rw [interp_seg9 c d h1 (le_trans hdd h2), interp_seg9 c d' (le_trans h1 hdd) h2]
        exact linear_mono _ _ _ _ _ _ (by norm_num) hdd hr
      · intro hr
        rw [interp_seg9 c d h1 (le_trans hdd h2), interp_seg9 c d' (le_trans h1 hdd) h2]
        exact linear_anti _ _ _ _ _ _ (by norm_num) hdd hr
    · constructor
      · intro hr
        rw [interp_seg10 c d h1 (le_trans hdd h2), interp_seg10 c d' (le_trans h1 hdd) h2]
        exact linear_mono _ _ _ _ _ _ (by norm_num) hdd hr
      · intro hr
        rw [interp_seg10 c d h1 (le_trans hdd h2), interp_seg10 c d' (le_trans h1 hdd) h2]
        exact linear_anti _ _ _ _ _ _ (by norm_num) hdd hr
  · intro c d h
    exact interp_low c d h
  · intro c d h
    exact interp_high c d h

theorem spec_C9_witness :
    interpolate_rate BASE_YIELD_CURVE 400 ≤ interpolate_rate BASE_YIELD_CURVE 500 :=
  (spec_C9.1 BASE_YIELD_CURVE 3 400 500 (show (365 : ℚ) ≤ 400 by norm_num)
    (by norm_num) (show (500 : ℚ) ≤ 730 by norm_num)).1
    (show (0.0450 : ℚ) ≤ 0.0475 by norm_num)
